import Mathlib

/-!
# earlyapp: the ICI capture-to-display pipeline

A shallow embedding of `ext/CameraICI/src/icitest.c`:

* `polling_thread`, the acquisition loop, as a step function
  (`polling_iteration`) over one loop iteration and a loop (`polling_loop`) over the
  sequence of results that `poll`, `dequeue_buffer`, `gettimeofday` and `GET_TS`
  deliver to it;
* the main display loop of `iciStartDisplay` (`render_loop`), and `iciStartDisplay` as a
  whole as the sequence of calls it makes on each of its paths;
* `format_setup`, on the fields of `struct setup` and of the global `stream_fmt`;
* `iciStopDisplay`, `CameraDevice::play` and `CameraDevice::stop` (`src/CameraDevice.cpp`);
* the creation of the GPIO control in `CameraDevice::init` and `OutputDevice::init`, and
  `GPIOControl::output` (`src/GPIOControl.cpp`).

Globals (`running`, `first_frame_received`, `time_measurements.first_frame_time`) and the
locals of `polling_thread` are fields of an explicit state.  Calls into collaborators
(`queue_buffer`, `fprintf`, ...) are recorded, in program order, in a trace.
Pointers `&display->buffers[i]` are represented by the index `i`; a null pointer by `none`.

Values of type `int`, `time_t` and `suseconds_t` are unbounded integers; the two
`unsigned int` frame counters wrap modulo `2^32`.  The `float` variable `time_diff_secs`
only ever holds the result of an integer division and is represented by that integer;
the printed rate is the exact quotient.  A store through an index outside the pool is
recorded in the trace and leaves the modelled pool unchanged.
-/

namespace Icitest

/-- Record `struct timeval` of `<sys/time.h>`: seconds and microseconds. -/
structure Timeval where
  tv_sec : Int
  tv_usec : Int
  deriving DecidableEq, Repr

/-- Macro `timersub(a, b, res)` of `<sys/time.h>`: the difference `a - b`, with a borrow
from the seconds when the microseconds become negative. -/
def timersub (a b : Timeval) : Timeval :=
  if a.tv_usec - b.tv_usec < 0 then
    { tv_sec := a.tv_sec - b.tv_sec - 1, tv_usec := a.tv_usec - b.tv_usec + 1000000 }
  else
    { tv_sec := a.tv_sec - b.tv_sec, tv_usec := a.tv_usec - b.tv_usec }

/-- Fields of `struct setup` that `polling_thread` reads through `display->s`.  The
structure is declared in `icitest.h`; its counters are unsigned, so they are naturals
here.  The comparison `buf_idx > display->s->buffer_count || buf_idx < 0` has the same
truth value whether `buf_idx` is converted to unsigned or not, since a negative `buf_idx`
satisfies the second disjunct. -/
structure Setup where
  buffer_count : Nat
  interlaced : Nat
  frames_count : Nat
  deriving DecidableEq, Repr

/-- Calls and stores of `polling_thread` that are visible outside one iteration, in
program order. -/
inductive Action where
  /-- Call `dequeue_buffer` returned `buf_idx` (line 82). -/
  | dequeue (buf_idx : Int)
  /-- Diagnostic `Failed to Deque Buffer` (line 87). -/
  | failed_deque
  /-- Store `display->buffers[i].is_top = v` (line 91). -/
  | store_is_top (i : Int) (v : Int)
  /-- Warning `Top buffer not received` (line 97). -/
  | warn_no_top
  /-- Store `display->disp_bufs[0] = &display->buffers[i]` (lines 99, 105). -/
  | set_disp0 (i : Int)
  /-- Store `display->disp_bufs[1] = &display->buffers[i]` (line 100). -/
  | set_disp1 (i : Int)
  /-- Call `queue_buffer(fd.fd, &display->buffers[i], ...)` (line 107). -/
  | queue_buffer (i : Int)
  /-- Macro call `GET_TS(time_measurements.first_frame_time)` storing `ts` (line 111). -/
  | get_ts_first_frame (ts : Int)
  /-- Store `running = 0` (line 118). -/
  | clear_running
  /-- Line `Received %d frames from IPU in %6.3f seconds = %6.3f FPS` (line 126), with
  the values of `received_frames` and `time_diff_secs`. -/
  | fps_report (received_frames : Nat) (time_diff_secs : Int)
  deriving DecidableEq, Repr

/-- What the environment delivers to one iteration of the `while(running)` loop. -/
inductive Event where
  /-- Call `poll(&fd, 1, 5000)` returned a value that is not positive. -/
  | timeout
  /-- Call `poll` returned a positive value but `fd.revents & POLLIN` is zero. -/
  | no_pollin
  /-- A buffer is ready: `dequeue_buffer` returns `buf_idx` and leaves `is_topbuf` in the
  local `is_topbuf`; `ts` is the instant `GET_TS` would read and `now` the value
  `gettimeofday(&curr_time_th, NULL)` stores. -/
  | dequeued (buf_idx : Int) (is_topbuf : Int) (ts : Int) (now : Timeval)
  deriving DecidableEq, Repr

/-- State of the acquisition loop: the globals it shares, the parts of `struct display`
it writes, and the locals of `polling_thread`. -/
structure PollState where
  /-- Global `running`. -/
  running : Int
  /-- Global `first_frame_received`. -/
  first_frame_received : Int
  /-- Field `time_measurements.first_frame_time`. -/
  first_frame_time : Int
  /-- Field `is_top` of each element of `display->buffers`. -/
  buffers : List Int
  /-- Pointer `display->disp_bufs[0]`. -/
  disp_bufs0 : Option Int
  /-- Pointer `display->disp_bufs[1]`. -/
  disp_bufs1 : Option Int
  is_topbuf : Int
  prev_top_idx : Int
  received_frames : Nat
  total_received_frames : Nat
  prev_time_th : Timeval
  curr_time_th : Timeval
  trace : List Action
  deriving DecidableEq, Repr

/-- Range of `unsigned int`. -/
def UINT_RANGE : Nat := 4294967296

/-- Lines 92 to 106: field pairing in interlaced mode, direct publication otherwise. -/
def pair_fields (s : Setup) (buf_idx : Int) (st : PollState) : PollState :=
  if s.interlaced ≠ 0 then
    if st.is_topbuf ≠ 0 then
      { st with prev_top_idx := buf_idx }
    else if st.prev_top_idx < 0 then
      { st with trace := st.trace ++ [Action.warn_no_top] }
    else
      { st with
        disp_bufs0 := some st.prev_top_idx
        disp_bufs1 := some buf_idx
        prev_top_idx := -1
        trace := st.trace ++ [Action.set_disp0 st.prev_top_idx, Action.set_disp1 buf_idx] }
  else
    { st with
      disp_bufs0 := some buf_idx
      trace := st.trace ++ [Action.set_disp0 buf_idx] }

/-- Lines 109 to 112: the first-frame KPI. -/
def first_frame_kpi (ts : Int) (st : PollState) : PollState :=
  if st.first_frame_received = 0 then
    { st with
      first_frame_received := 1
      first_frame_time := ts
      trace := st.trace ++ [Action.get_ts_first_frame ts] }
  else st

/-- Lines 114 to 119: the frame counters (both `unsigned int`) and the frame budget. -/
def count_frame (s : Setup) (st : PollState) : PollState :=
  let received := (st.received_frames + 1) % UINT_RANGE
  let total := (st.total_received_frames + 1) % UINT_RANGE
  if s.frames_count ≠ 0 ∧ total ≥ s.frames_count then
    { st with
      received_frames := received
      total_received_frames := total
      running := 0
      trace := st.trace ++ [Action.clear_running] }
  else
    { st with received_frames := received, total_received_frames := total }

/-- Lines 121 to 123: the value assigned to `time_diff_secs`.  The expression
`(time_diff.tv_sec * 1000 + time_diff.tv_usec / 1000) / 1000` has integer operands, so
both divisions are integer divisions (truncating); the conversion to `float` happens
after them. -/
def time_diff_secs (curr prev : Timeval) : Int :=
  ((timersub curr prev).tv_sec * 1000 + (timersub curr prev).tv_usec.tdiv 1000).tdiv 1000

/-- Lines 120 to 135: the frame-rate window.  The window length `TARGET_NUM_SECONDS`
is a macro of `icitest_time.h` and is a parameter here. -/
def measure_fps (TARGET_NUM_SECONDS : Int) (now : Timeval) (st : PollState) : PollState :=
  if time_diff_secs now st.prev_time_th ≥ TARGET_NUM_SECONDS then
    { st with
      received_frames := 0
      prev_time_th := now
      curr_time_th := st.prev_time_th
      trace := st.trace ++
        [Action.fps_report st.received_frames (time_diff_secs now st.prev_time_th)] }
  else
    { st with curr_time_th := now }

/-- Third value printed by line 126: `received_frames / time_diff_secs`, a division of
the frame count by the value held in `time_diff_secs`. -/
def reported_fps (received_frames : Nat) (secs : Int) : ℚ :=
  (received_frames : ℚ) / (secs : ℚ)

/-- One iteration of the body of `while(running)` (lines 80 to 137).  The second
component tells whether the iteration left the loop through `break`. -/
def polling_iteration (s : Setup) (TARGET_NUM_SECONDS : Int) (e : Event)
    (st : PollState) : PollState × Bool :=
  match e with
  | Event.timeout => (st, false)
  | Event.no_pollin => (st, false)
  | Event.dequeued buf_idx is_topbuf ts now =>
    let st1 := { st with is_topbuf := is_topbuf, trace := st.trace ++ [Action.dequeue buf_idx] }
    if buf_idx > (s.buffer_count : Int) ∨ buf_idx < 0 then
      ({ st1 with trace := st1.trace ++ [Action.failed_deque] }, true)
    else
      let st2 := { st1 with
        buffers := st1.buffers.set buf_idx.toNat is_topbuf
        trace := st1.trace ++ [Action.store_is_top buf_idx is_topbuf] }
      let st3 := pair_fields s buf_idx st2
      let st4 := { st3 with trace := st3.trace ++ [Action.queue_buffer buf_idx] }
      let st5 := first_frame_kpi ts st4
      let st6 := count_frame s st5
      (measure_fps TARGET_NUM_SECONDS now st6, false)

/-- The loop `while(running) { ... }` of `polling_thread` over the events delivered to
its iterations.  It ends when `running` is zero at the loop test, when an iteration
breaks, or when the events are exhausted. -/
def polling_loop (s : Setup) (TARGET_NUM_SECONDS : Int) : List Event → PollState → PollState
  | [], st => st
  | e :: es, st =>
    if st.running = 0 then st
    else if (polling_iteration s TARGET_NUM_SECONDS e st).2 then
      (polling_iteration s TARGET_NUM_SECONDS e st).1
    else polling_loop s TARGET_NUM_SECONDS es (polling_iteration s TARGET_NUM_SECONDS e st).1

/-- State in which `polling_thread` enters its loop (lines 71 to 78): `running` and
`first_frame_received` are the globals as the thread finds them, `t0` is the value
`gettimeofday(&prev_time_th, NULL)` stores, the pool has `buffer_count` zeroed buffers
(the `memset` of `iciStartDisplay`) and `disp_bufs` is null (`display = { 0 }`). -/
def polling_init (s : Setup) (running first_frame_received : Int) (t0 : Timeval) : PollState :=
  { running := running
    first_frame_received := first_frame_received
    first_frame_time := 0
    buffers := List.replicate s.buffer_count 0
    disp_bufs0 := none
    disp_bufs1 := none
    is_topbuf := 1
    prev_top_idx := -1
    received_frames := 0
    total_received_frames := 0
    prev_time_th := t0
    curr_time_th := { tv_sec := 0, tv_usec := 0 }
    trace := [] }

/-- Function `polling_thread`, run on the events delivered to its iterations. -/
def polling_thread (s : Setup) (TARGET_NUM_SECONDS : Int) (running first_frame_received : Int)
    (t0 : Timeval) (es : List Event) : PollState :=
  polling_loop s TARGET_NUM_SECONDS es (polling_init s running first_frame_received t0)


/-- Actions that lines 92 to 106 append to the trace. -/
def pair_acts (s : Setup) (buf_idx is_topbuf prev_top_idx : Int) : List Action :=
  if s.interlaced ≠ 0 then
    if is_topbuf ≠ 0 then []
    else if prev_top_idx < 0 then [Action.warn_no_top]
    else [Action.set_disp0 prev_top_idx, Action.set_disp1 buf_idx]
  else [Action.set_disp0 buf_idx]

/-- Actions that lines 109 to 112 append to the trace. -/
def kpi_acts (ts first_frame_received : Int) : List Action :=
  if first_frame_received = 0 then [Action.get_ts_first_frame ts] else []

/-- Condition of line 116 as evaluated after the increment of line 115, from the value
`total` that `total_received_frames` had before the increment. -/
def budget_reached (s : Setup) (total : Nat) : Bool :=
  decide (s.frames_count ≠ 0 ∧ (total + 1) % UINT_RANGE ≥ s.frames_count)

/-- Actions that lines 114 to 119 append to the trace. -/
def budget_acts (s : Setup) (total : Nat) : List Action :=
  if budget_reached s total then [Action.clear_running] else []

/-- Actions that lines 120 to 135 append to the trace. -/
def fps_acts (T : Int) (now prev : Timeval) (received : Nat) : List Action :=
  if time_diff_secs now prev ≥ T then [Action.fps_report received (time_diff_secs now prev)]
  else []

/-- Actions of one iteration that dequeues `buf_idx` and does not break. -/
def iteration_acts (s : Setup) (T : Int) (buf_idx is_topbuf ts : Int) (now : Timeval)
    (st : PollState) : List Action :=
  [Action.dequeue buf_idx, Action.store_is_top buf_idx is_topbuf] ++
    pair_acts s buf_idx is_topbuf st.prev_top_idx ++ [Action.queue_buffer buf_idx] ++
    kpi_acts ts st.first_frame_received ++ budget_acts s st.total_received_frames ++
    fps_acts T now st.prev_time_th ((st.received_frames + 1) % UINT_RANGE)

/-- Indices returned by `dequeue_buffer`, in the order of the calls. -/
def dequeued_indices (tr : List Action) : List Int :=
  tr.filterMap fun a => match a with
    | Action.dequeue i => some i
    | _ => none

/-- Indices handed back to the driver through `queue_buffer`, in the order of the calls. -/
def requeued_indices (tr : List Action) : List Int :=
  tr.filterMap fun a => match a with
    | Action.queue_buffer i => some i
    | _ => none

/-- Ownership transfers: the calls of `dequeue_buffer` and of `queue_buffer`. -/
def is_transfer : Action → Bool
  | Action.dequeue _ => true
  | Action.queue_buffer _ => true
  | _ => false

/-- Whether an event gets past the test of line 85: for a dequeue event, whether
`buf_idx > display->s->buffer_count || buf_idx < 0` is false. -/
def passes_validation (s : Setup) : Event → Bool
  | Event.dequeued buf_idx _ _ _ => !(decide (buf_idx > (s.buffer_count : Int) ∨ buf_idx < 0))
  | _ => true

/-- Indices carried by the dequeue events of a list, in order. -/
def event_indices : List Event → List Int
  | [] => []
  | Event.dequeued i _ _ _ :: es => i :: event_indices es
  | _ :: es => event_indices es

/-- A dequeue immediately followed by the requeue of the same index. -/
def transfer_pair (i : Int) : List Action := [Action.dequeue i, Action.queue_buffer i]

/-- Stores into the Display Frame slot `display->disp_bufs`. -/
def is_disp_write : Action → Bool
  | Action.set_disp0 _ => true
  | Action.set_disp1 _ => true
  | _ => false

/-- Effect of one action on the question whether a top field is waiting for its bottom:
a buffer tagged top has been dequeued (`is_top` stored non-zero) makes it true, a store
into the Display Frame slot (a publish) makes it false, anything else leaves it. -/
def top_pending_step (p : Bool) : Action → Bool
  | Action.store_is_top _ v => if v ≠ 0 then true else p
  | Action.set_disp0 _ => false
  | Action.set_disp1 _ => false
  | _ => p

/-- Whether, in the trace `tr`, a top field has been dequeued since the last publish. -/
def top_pending (tr : List Action) : Bool :=
  tr.foldl top_pending_step false

/-- Loop invariant of `polling_thread` in interlaced mode: the local `prev_top_idx` is
non-negative exactly when a top field has been dequeued since the last publish. -/
def pending_inv (st : PollState) : Prop :=
  decide (0 ≤ st.prev_top_idx) = top_pending st.trace

/-- Parameters as `CameraDevice::init` fills `m_iciParam`: four buffers, progressive
(`interlaced = 0`), no frame budget (`frames_count = 0`). -/
def progressive_setup : Setup := { buffer_count := 4, interlaced := 0, frames_count := 0 }

/-- The same parameters with `interlaced` set. -/
def interlaced_setup : Setup := { buffer_count := 4, interlaced := 1, frames_count := 0 }

/-- Whether an event is the dequeue of a buffer tagged bottom (`is_topbuf == 0`). -/
def dequeues_bottom : Event → Bool
  | Event.dequeued _ is_topbuf _ _ => decide (is_topbuf = 0)
  | _ => false

/-- Number of dequeue events in a list of events. -/
def dequeue_count (es : List Event) : Nat := (event_indices es).length

/-- The store `running = 0` of line 118. -/
def is_clear_running : Action → Bool
  | Action.clear_running => true
  | _ => false

/-- The store into `time_measurements.first_frame_time` made by `GET_TS` (line 111). -/
def is_first_frame_write : Action → Bool
  | Action.get_ts_first_frame _ => true
  | _ => false

/-- Index of the element of `display->buffers` that an action reads, writes or takes
the address of. -/
def buffer_access : Action → Option Int
  | Action.store_is_top i _ => some i
  | Action.set_disp0 i => some i
  | Action.set_disp1 i => some i
  | Action.queue_buffer i => some i
  | _ => none

/-- What one call of `wl_display_dispatch` in the main display loop delivers: the value
it returns, and the value the global `running` holds when the loop condition is
evaluated next (the acquisition thread and `iciStopDisplay` write it meanwhile). -/
structure Dispatch where
  ret : Int
  running : Int
  deriving DecidableEq, Repr

/-- State of the main display loop of `iciStartDisplay` (lines 353 to 355). -/
structure RenderState where
  /-- Global `running` as the loop condition reads it. -/
  running : Int
  /-- Local `ret`. -/
  ret : Int
  /-- Number of calls of `wl_display_dispatch` the loop has made. -/
  dispatches : Nat
  /-- Whether the loop condition has been found false. -/
  exited : Bool
  deriving DecidableEq, Repr

/-- Loop `while (running && ret != -1) ret = wl_display_dispatch(display.display);` over the
results delivered to its dispatch calls.  When the results are exhausted while the
condition still holds, the loop has not exited. -/
def render_loop : List Dispatch → RenderState → RenderState
  | [], st => if st.running ≠ 0 ∧ st.ret ≠ -1 then st else { st with exited := true }
  | d :: ds, st =>
    if st.running ≠ 0 ∧ st.ret ≠ -1 then
      render_loop ds
        { running := d.running, ret := d.ret, dispatches := st.dispatches + 1, exited := false }
    else { st with exited := true }

/-- State in which `iciStartDisplay` reaches line 353: `ret` is 0, because line 266
returns when `init_stream` gave anything else and nothing assigns `ret` in between. -/
def render_init (running : Int) : RenderState :=
  { running := running, ret := 0, dispatches := 0, exited := false }

/-- The loop condition `running && ret != -1` on the values one dispatch left behind. -/
def dispatch_again (d : Dispatch) : Bool := decide (d.running ≠ 0 ∧ d.ret ≠ -1)

/-- Frame-rate lines printed by the loop, as pairs of the values of `received_frames` and
`time_diff_secs` they were printed from. -/
def fps_reports (tr : List Action) : List (Nat × Int) :=
  tr.filterMap fun a => match a with
    | Action.fps_report n secs => some (n, secs)
    | _ => none

/-- Elapsed time of a window in seconds as an exact quantity: the seconds plus the
microseconds of a `timersub` difference. -/
def exact_elapsed_seconds (d : Timeval) : ℚ :=
  (d.tv_sec : ℚ) + (d.tv_usec : ℚ) / 1000000

/-- A window of 1.5 s in which thirty buffers arrive: twenty-nine of them 30 ms apart
from 100.030 s on, the thirtieth at 101.500 s; the thread started at 100.000 s. -/
def burst_events : List Event :=
  (List.range 29).map (fun k =>
    Event.dequeued ((k % 4 : Nat) : Int) 0 (k : Int) ⟨100, 30000 * ((k : Int) + 1)⟩) ++
  [Event.dequeued 1 0 99 ⟨101, 500000⟩]

/-! ## `iciStartDisplay` and `iciStopDisplay` -/

/-- Function `iciStopDisplay(int stop)` (lines 388 to 391): `running = stop;`.  The
argument is the value passed, the second parameter the value the global held; the
result is the value the global holds afterwards. -/
def iciStopDisplay (stop : Int) (_running : Int) : Int := stop

/-- Calls, stores and diagnostics of `iciStartDisplay`, in program order. -/
inductive StartCall where
  /-- Call `ConfigureICI(true)` (line 251). -/
  | configure_ici
  /-- Call `format_setup(&s)` (line 254). -/
  | format_setup
  /-- Call `open_device(s.stream)` (line 257). -/
  | open_device
  /-- Diagnostic `Failed to open device` (line 260). -/
  | failed_open
  /-- Call `init_stream(dev_fd)` (line 265). -/
  | init_stream
  /-- Diagnostic `Stream Init Failed` (line 268). -/
  | stream_init_failed
  /-- Call `init_gem(&display)` (line 280). -/
  | init_gem
  /-- Call `allocate_buffers(...)` (line 284). -/
  | allocate_buffers
  /-- Call `queue_buffers(...)` (line 298). -/
  | queue_buffers
  /-- Call `stream_on(dev_fd)` (line 301). -/
  | stream_on
  /-- Store `running = start` (line 304). -/
  | set_running (start : Int)
  /-- Call `pthread_create(&poll_thread, NULL, &polling_thread, &display)` (line 308). -/
  | pthread_create
  /-- Message `Couldn't create polling thread` (line 310). -/
  | create_failed
  /-- Registry, EGL, surface and GL set-up (lines 320 to 333). -/
  | display_setup
  /-- A call `calloc(1, sizeof(struct timeval))` (lines 337 and 343). -/
  | calloc
  /-- Diagnostic `Cannot allocate memory` (lines 339 and 345). -/
  | no_memory
  /-- Call `wl_display_dispatch` of the main display loop returned `ret` (line 354). -/
  | dispatch (ret : Int)
  /-- Message `ici-test existing running = %d` with the value of `running` (line 358). -/
  | exiting (running : Int)
  /-- Call `pthread_join(poll_thread, NULL)` (line 360). -/
  | pthread_join
  /-- Calls `free(curr_time); free(prev_time);` (lines 362 and 363). -/
  | free_times
  /-- Call `cleanup(dev_fd)` (line 365). -/
  | cleanup
  /-- Call `free_buffers(...)` (line 368). -/
  | free_buffers
  /-- Call `destroy_gem(&display)` (line 371). -/
  | destroy_gem
  /-- Call `destroy_surface(&window)` (line 373). -/
  | destroy_surface
  /-- Call `close_device(dev_fd)` (lines 267 and 375). -/
  | close_device
  /-- Call `wl_shell_destroy` (line 377). -/
  | wl_shell_destroy
  /-- Call `wl_compositor_destroy` (line 381). -/
  | wl_compositor_destroy
  /-- Call `wl_display_flush` (line 383). -/
  | wl_display_flush
  deriving DecidableEq, Repr

/-- What the collaborators of `iciStartDisplay` deliver to one execution. -/
structure StartEnv where
  /-- Value of `*ici_rdy` on entry. -/
  ici_rdy : Int
  /-- Value returned by `open_device`. -/
  dev_fd : Int
  /-- Value returned by `init_stream`. -/
  init_stream : Int
  /-- Whether `s.mem_type == ICI_MEM_DMABUF`. -/
  dmabuf : Bool
  /-- Value returned by `queue_buffers`. -/
  queue_buffers : Int
  /-- Value returned by `stream_on`. -/
  stream_on : Int
  /-- Value returned by `pthread_create`; zero means the thread was spawned. -/
  pthread_create : Int
  /-- Whether the wait `while (stat(wayland_path, &tmp) != 0)` ends. -/
  wayland_socket : Bool
  /-- Whether `g_display_connection` is non-null, the condition of the `assert`. -/
  display_connection : Bool
  /-- Whether the first `calloc` returns memory. -/
  prev_time : Bool
  /-- Whether the second `calloc` returns memory. -/
  curr_time : Bool
  /-- Value of the global `running` when the loop condition is evaluated first. -/
  running_at_loop : Int
  /-- Results of the dispatch calls of the main display loop. -/
  dispatches : List Dispatch
  deriving DecidableEq, Repr

/-- Outcome of one execution of `iciStartDisplay`: what it called, and the value it
returned (`none` when it has not returned: it is still waiting for the display, was
stopped by the `assert`, or is still in the main display loop). -/
structure StartResult where
  calls : List StartCall
  ret : Option Int
  deriving DecidableEq, Repr

/-- Lines 367 to 383, from the label `cleanup0` to the last call before `return 0`. -/
def teardown (dmabuf : Bool) : List StartCall :=
  [StartCall.free_buffers] ++ (if dmabuf then [StartCall.destroy_gem] else []) ++
    [StartCall.destroy_surface, StartCall.close_device, StartCall.wl_shell_destroy,
      StartCall.wl_compositor_destroy, StartCall.wl_display_flush]

/-- Calls of lines 250 to 257, up to and including `open_device`. -/
def start_open (env : StartEnv) : List StartCall :=
  (if env.ici_rdy = 0 then [StartCall.configure_ici] else []) ++
    [StartCall.format_setup, StartCall.open_device]

/-- Calls of lines 250 to 298, up to and including `queue_buffers`. -/
def start_alloc (env : StartEnv) : List StartCall :=
  start_open env ++ [StartCall.init_stream] ++
    (if env.dmabuf then [StartCall.init_gem] else []) ++
    [StartCall.allocate_buffers, StartCall.queue_buffers]

/-- Calls of lines 250 to 311, up to and including the creation of the thread. -/
def start_spawn (start : Int) (env : StartEnv) : List StartCall :=
  start_alloc env ++
    [StartCall.stream_on, StartCall.set_running start, StartCall.pthread_create] ++
    (if env.pthread_create ≠ 0 then [StartCall.create_failed] else [])

/-- Dispatch calls the main display loop makes, in order. -/
def loop_calls (env : StartEnv) : List StartCall :=
  (env.dispatches.take
    (render_loop env.dispatches (render_init env.running_at_loop)).dispatches).map
    fun d => StartCall.dispatch d.ret

/-- Function `iciStartDisplay(param, io_stream_id, start, gpioclass, ici_rdy)` (lines 233
to 386) as the sequence of its calls and its return value.  The `GET_TS` stamps and the
messages that are not diagnostics of a failure are left out of the sequence. -/
def iciStartDisplay (start : Int) (env : StartEnv) : StartResult :=
  if env.dev_fd = -1 then
    { calls := start_open env ++ [StartCall.failed_open], ret := some 0 }
  else if env.init_stream ≠ 0 then
    { calls := start_open env ++
        [StartCall.init_stream, StartCall.close_device, StartCall.stream_init_failed],
      ret := some 0 }
  else if env.queue_buffers < 0 then
    { calls := start_alloc env ++ teardown env.dmabuf, ret := some 0 }
  else if env.stream_on < 0 then
    { calls := start_alloc env ++ [StartCall.stream_on] ++ teardown env.dmabuf, ret := some 0 }
  else if env.wayland_socket = false then
    { calls := start_spawn start env, ret := none }
  else if env.display_connection = false then
    { calls := start_spawn start env, ret := none }
  else if env.prev_time = false then
    { calls := start_spawn start env ++
        [StartCall.display_setup, StartCall.calloc, StartCall.no_memory],
      ret := some 0 }
  else if env.curr_time = false then
    { calls := start_spawn start env ++
        [StartCall.display_setup, StartCall.calloc, StartCall.calloc, StartCall.no_memory],
      ret := some 0 }
  else if (render_loop env.dispatches (render_init env.running_at_loop)).exited then
    { calls := start_spawn start env ++
        [StartCall.display_setup, StartCall.calloc, StartCall.calloc] ++ loop_calls env ++
        [StartCall.exiting (render_loop env.dispatches (render_init env.running_at_loop)).running,
          StartCall.pthread_join, StartCall.free_times, StartCall.cleanup] ++
        teardown env.dmabuf,
      ret := some 0 }
  else
    { calls := start_spawn start env ++
        [StartCall.display_setup, StartCall.calloc, StartCall.calloc] ++ loop_calls env,
      ret := none }

/-- An execution in which every set-up step succeeds; the main display loop is left to
the dispatch results given. -/
def good_env (running_at_loop : Int) (dispatches : List Dispatch) : StartEnv :=
  { ici_rdy := 1, dev_fd := 3, init_stream := 0, dmabuf := true, queue_buffers := 0,
    stream_on := 0, pthread_create := 0, wayland_socket := true, display_connection := true,
    prev_time := true, curr_time := true, running_at_loop := running_at_loop,
    dispatches := dispatches }

/-- Where the acquisition thread stands, for an observer of the call order. -/
inductive ThreadPhase where
  | not_spawned
  | spawned
  | joined
  deriving DecidableEq, Repr

/-- Observer of the call order: it follows the thread through `pthread_create` and
`pthread_join` and raises its flag when `free_buffers` or `close_device` is called while
the thread is spawned and not joined. -/
def order_step (p : ThreadPhase × Bool) : StartCall → ThreadPhase × Bool
  | StartCall.pthread_create => (ThreadPhase.spawned, p.2)
  | StartCall.pthread_join => (ThreadPhase.joined, p.2)
  | StartCall.free_buffers => (p.1, p.2 || decide (p.1 = ThreadPhase.spawned))
  | StartCall.close_device => (p.1, p.2 || decide (p.1 = ThreadPhase.spawned))
  | _ => p

/-- Whether a sequence of calls releases the pool or closes the device while the
acquisition thread is spawned and not yet joined. -/
def released_while_unjoined (calls : List StartCall) : Bool :=
  (calls.foldl order_step (ThreadPhase.not_spawned, false)).2

/-! ## `CameraDevice` and `GPIOControl` (`src/CameraDevice.cpp`, `src/GPIOControl.cpp`) -/

/-- One `std::thread` of `m_pThreadGrpRVC` as `CameraDevice::stop` meets it: whether it
is joinable, and the last value the code it runs (`iciStartDisplay(..., 1, ...)` and the
`polling_thread` it creates) stores into `running` after the store `running = 0` of
`stop()` and before the thread ends; `none` when it makes no such store.  A thread that
has not yet executed `running = start` (`icitest.c`, line 304) when `stop()` stores 0
stores 1 afterwards; the frame budget (line 118) stores 0. -/
structure RvcThread where
  joinable : Bool
  late_store : Option Int
  deriving DecidableEq, Repr

/-- State that `CameraDevice::play` and `CameraDevice::stop` read and write: the globals
`m_ICIEnabled` and `running` of `icitest.c`, the thread group, the pointer `m_pThreadRVC`
(the position of the thread it points to, `none` for `nullptr`), and the number of
`thread.join()` calls made so far. -/
structure CameraDevice where
  m_ICIEnabled : Int
  running : Int
  m_pThreadGrpRVC : List RvcThread
  m_pThreadRVC : Option Nat
  joins : Nat
  deriving DecidableEq, Repr

/-- Method `CameraDevice::play` (lines 126 to 140); `configure` is the value
`ConfigureICI(false)` returns when it is called, `th` the thread that `emplace_back`
creates. -/
def CameraDevice.play (d : CameraDevice) (configure : Int) (th : RvcThread) : CameraDevice :=
  { d with
    m_ICIEnabled := if d.m_ICIEnabled = 0 then configure else d.m_ICIEnabled
    m_pThreadGrpRVC := d.m_pThreadGrpRVC ++ [th]
    m_pThreadRVC := some d.m_pThreadGrpRVC.length }

/-- Value of `running` when the loop of lines 154 to 158 has joined every joinable
thread: each `thread.join()` returns once the thread has ended, with the stores the
thread still made into `running`; the threads are taken in the order of the joins. -/
def join_threads (running : Int) (threads : List RvcThread) : Int :=
  threads.foldl (fun r th => if th.joinable then th.late_store.getD r else r) running

/-- Method `CameraDevice::stop` (lines 145 to 165). -/
def CameraDevice.stop (d : CameraDevice) : CameraDevice :=
  if d.m_ICIEnabled ≠ 0 then
    if d.m_pThreadGrpRVC ≠ [] then
      { d with
        running := join_threads (iciStopDisplay 0 d.running) d.m_pThreadGrpRVC
        joins := d.joins + (d.m_pThreadGrpRVC.filter fun th => th.joinable).length
        m_pThreadGrpRVC := []
        m_pThreadRVC := none }
    else
      { d with running := iciStopDisplay 0 d.running }
  else d

/-- A display thread that is past `running = start` (line 304) when `stop()` is called:
it is joinable and stores nothing non-zero into `running` any more. -/
def streaming_thread : RvcThread := { joinable := true, late_store := none }

/-- A display thread that `stop()` overtakes: it has not yet executed `running = start`
(line 304, `start` is 1) and ends, after a failed `calloc` (lines 338 to 346), with
`running` still 1. -/
def starting_thread : RvcThread := { joinable := true, late_store := some 1 }

/-- Members of `GPIOControl` (declared in `GPIOControl.hpp`). -/
structure GPIOControl where
  m_Valid : Bool
  m_GPIONumber : Int
  m_SustainTime : Nat
  deriving DecidableEq, Repr

/-- Constant `Configuration::NOT_SET` (`Configuration.cpp`, line 42). -/
def NOT_SET : Int := -1

/-- Constructor `GPIOControl::GPIOControl(gpioNumber, peakSustainTime)` (lines 48 to 71).
It assigns `m_GPIONumber` only for a positive number; `unset` is the value the member
holds otherwise.  The product `peakSustainTime * 1000` is an `unsigned int`. -/
def GPIOControl.construct (gpioNumber : Int) (peakSustainTime : Nat) (unset : Int) :
    GPIOControl :=
  if gpioNumber > 0 then
    { m_Valid := true, m_GPIONumber := gpioNumber,
      m_SustainTime := (peakSustainTime * 1000) % UINT_RANGE }
  else
    { m_Valid := false, m_GPIONumber := unset,
      m_SustainTime := (peakSustainTime * 1000) % UINT_RANGE }

/-- Function `GPIOControl_create` (lines 179 to 182): `new GPIOControl(...)`. -/
def GPIOControl_create (gpioNumber : Int) (peakSustainTime : Nat) (unset : Int) :
    Option GPIOControl :=
  some (GPIOControl.construct gpioNumber peakSustainTime unset)

/-- Lines 114 to 118 of `CameraDevice::init`: the value of `m_pGPIOClass` afterwards,
from the value `prior` it had before. -/
def CameraDevice_init_gpio (gpioNumber : Int) (gpioSustain : Nat) (unset : Int)
    (prior : Option GPIOControl) : Option GPIOControl :=
  if gpioNumber ≠ NOT_SET then GPIOControl_create gpioNumber gpioSustain unset else prior

/-- Lines 70 to 78 of `OutputDevice::init`: the value of `m_pGPIOCtrl` afterwards. -/
def OutputDevice_init_gpio (gpioNumber : Int) (sustainTime : Nat) (unset : Int)
    (prior : Option GPIOControl) : Option GPIOControl :=
  if gpioNumber > 0 then some (GPIOControl.construct gpioNumber sustainTime unset) else prior

/-- Macro `GPIO_DIRPATH`. -/
def GPIO_DIRPATH : String := "/sys/class/gpio"

/-- Method `GPIOControl::exportPath` (lines 144 to 148). -/
def GPIOControl.exportPath (_g : GPIOControl) : String := GPIO_DIRPATH ++ "/export"

/-- Method `GPIOControl::directionPath` (lines 151 to 160). -/
def GPIOControl.directionPath (g : GPIOControl) : String :=
  GPIO_DIRPATH ++ "/gpio" ++ toString g.m_GPIONumber ++ "/direction"

/-- Method `GPIOControl::valuePath` (lines 163 to 172). -/
def GPIOControl.valuePath (g : GPIOControl) : String :=
  GPIO_DIRPATH ++ "/gpio" ++ toString g.m_GPIONumber ++ "/value"

/-- File operations of `GPIOControl::output`. -/
inductive FileOp where
  | open (path : String)
  | write (path : String) (data : String)
  | close (path : String)
  deriving DecidableEq, Repr

/-- Descriptors the four `open` calls of `GPIOControl::output` return, in the order of
the source: the value file, the export file, the direction file, the value file again. -/
structure OpenResults where
  valueFd : Int
  exportFd : Int
  dirFd : Int
  retryFd : Int
  deriving DecidableEq, Repr

/-- Character written to the value file (line 122); `high` stands for
`highLow == eGPIOValue::HIGH`. -/
def gpio_level (high : Bool) : String := if high then "1" else "0"

/-- Method `GPIOControl::output(highLow)` (lines 74 to 127): the file operations it
performs and the value it returns. -/
def GPIOControl.output (g : GPIOControl) (high : Bool) (r : OpenResults) :
    List FileOp × Bool :=
  if r.valueFd < 0 then
    if r.exportFd < 0 then
      ([FileOp.open g.valuePath, FileOp.open g.exportPath], false)
    else if r.dirFd < 0 then
      ([FileOp.open g.valuePath, FileOp.open g.exportPath,
        FileOp.write g.exportPath (toString g.m_GPIONumber), FileOp.close g.exportPath,
        FileOp.open g.directionPath], false)
    else if r.retryFd < 0 then
      ([FileOp.open g.valuePath, FileOp.open g.exportPath,
        FileOp.write g.exportPath (toString g.m_GPIONumber), FileOp.close g.exportPath,
        FileOp.open g.directionPath, FileOp.write g.directionPath "out",
        FileOp.close g.directionPath, FileOp.open g.valuePath], false)
    else
      ([FileOp.open g.valuePath, FileOp.open g.exportPath,
        FileOp.write g.exportPath (toString g.m_GPIONumber), FileOp.close g.exportPath,
        FileOp.open g.directionPath, FileOp.write g.directionPath "out",
        FileOp.close g.directionPath, FileOp.open g.valuePath,
        FileOp.write g.valuePath (gpio_level high), FileOp.close g.valuePath], true)
  else
    ([FileOp.open g.valuePath, FileOp.write g.valuePath (gpio_level high),
      FileOp.close g.valuePath], true)

/-- Method `GPIOControl::outputPattern` (lines 136 to 141): `output(HIGH)`, the pause of
`sustain()`, `output(LOW)`; `r1` and `r2` are the results of the opens of the two
outputs. -/
def GPIOControl.outputPattern (g : GPIOControl) (r1 r2 : OpenResults) : List FileOp :=
  (g.output true r1).1 ++ (g.output false r2).1

/-- Loop invariant of `polling_thread`: a buffer remembered in `prev_top_idx` has already
been handed back to the driver. -/
def pending_requeued_inv (st : PollState) : Prop :=
  0 ≤ st.prev_top_idx → Action.queue_buffer st.prev_top_idx ∈ st.trace

/-! ## `format_setup` -/

/-- Branch of `switch (s->stream_input)` in `format_setup` that a value of `stream_input`
selects.  The enumerators are declared in `icitest.h`; `CVBS_INPUT` stands for every value
that is none of the three others, all of which take the `default` branch. -/
inductive StreamInput where
  | HDMI_INPUT
  | TPG_INPUT
  | OVTI_INPUT
  | CVBS_INPUT
  deriving DecidableEq, Repr

/-- Values of `stream_fmt.ffmt.field` that `format_setup` assigns. -/
inductive IciField where
  | ICI_FIELD_NONE
  | ICI_FIELD_ALTERNATE
  deriving DecidableEq, Repr

/-- Pixel-format codes of `ici.h` that `format_setup` uses. -/
structure PixelFormats where
  ICI_FORMAT_RGB888 : Int
  ICI_FORMAT_SGRBG8 : Int
  ICI_FORMAT_UYVY : Int
  deriving DecidableEq, Repr

/-- Fields of `struct setup` that `format_setup` reads or writes; `stream` is the device
number printed into `s->stream`. -/
structure FormatSetup where
  stream : Int
  stream_input : StreamInput
  isys_w : Nat
  isys_h : Nat
  port : Nat
  interlaced : Nat
  ow : Nat
  oh : Nat
  iw : Nat
  ih : Nat
  buffer_count : Nat
  in_fourcc : Int
  deriving DecidableEq, Repr

/-- Fields of the global `stream_fmt` that `format_setup` writes: those of `ffmt`, then
`pfmt.plane_fmt[0].bytesperline` and `pfmt.num_planes`. -/
structure StreamFormat where
  field : IciField
  pixelformat : Int
  width : Nat
  height : Nat
  colorspace : Nat
  flags : Nat
  bytesperline : Nat
  num_planes : Nat
  deriving DecidableEq, Repr

/-- Lines 153 to 195 of `format_setup`, the `switch`: the setup, the stream format and
whether `WARN_ON` was reached.  In the `default` branch the statement of lines 189 to 191,
`if (!stream_fmt.ffmt.pixelformat) stream_fmt.ffmt.pixelformat = ICI_FORMAT_UYVY, s->port = 4;`,
is one comma expression, so both assignments are under the `if`. -/
def format_switch (fmts : PixelFormats) (pixelformat : Int) (f : StreamFormat)
    (s : FormatSetup) : FormatSetup × StreamFormat × Bool :=
  match s.stream_input with
  | StreamInput.HDMI_INPUT =>
    ({ s with port := 0 },
      { f with
        width := if s.isys_w ≠ 0 ∧ s.isys_h ≠ 0 then s.isys_w else 1920
        height := if s.isys_w ≠ 0 ∧ s.isys_h ≠ 0 then s.isys_h else 1080
        pixelformat := if f.pixelformat = 0 then fmts.ICI_FORMAT_RGB888 else f.pixelformat },
      false)
  | StreamInput.TPG_INPUT =>
    ({ s with port := 0 },
      { f with
        width := 1920
        height := 1080
        pixelformat := if f.pixelformat = 0 then fmts.ICI_FORMAT_SGRBG8 else f.pixelformat
        bytesperline := 1984 },
      false)
  | StreamInput.OVTI_INPUT =>
    ({ s with port := 0 },
      { f with
        width := 1280
        height := 720
        pixelformat := if f.pixelformat = 0 then fmts.ICI_FORMAT_UYVY else f.pixelformat },
      false)
  | StreamInput.CVBS_INPUT =>
    (if f.pixelformat = 0 then { s with port := 4 } else s,
      { f with
        width := 720
        height := 288
        pixelformat := if f.pixelformat = 0 then fmts.ICI_FORMAT_UYVY else f.pixelformat
        field := if s.interlaced ≠ 0 then IciField.ICI_FIELD_ALTERNATE else f.field },
      decide (pixelformat ≠ 0 ∧ pixelformat ≠ fmts.ICI_FORMAT_UYVY))

/-- Function `format_setup(struct setup *s)` (lines 142 to 210).  The globals it reads are
parameters: `stream_id`, `pixelformat`, and `stream_fmt` as it was before the call;
`DEFAULT_STREAM_ID` is a macro of `icitest.h`.  `WARN_ON` is taken to return. -/
def format_setup (fmts : PixelFormats) (DEFAULT_STREAM_ID : Int) (stream_id pixelformat : Int)
    (stream_fmt : StreamFormat) (s : FormatSetup) : FormatSetup × StreamFormat × Bool :=
  let s0 := { s with stream := if stream_id ≥ 0 then stream_id else DEFAULT_STREAM_ID }
  let f0 := { stream_fmt with field := IciField.ICI_FIELD_NONE, pixelformat := pixelformat }
  let r := format_switch fmts pixelformat f0 s0
  let f1 := { r.2.1 with colorspace := 0, num_planes := 1, flags := 0 }
  ({ r.1 with
      ow := if r.1.ow = 0 ∨ r.1.oh = 0 then 1920 else r.1.ow
      oh := if r.1.ow = 0 ∨ r.1.oh = 0 then 1080 else r.1.oh
      iw := f1.width
      ih := f1.height
      buffer_count := 4
      in_fourcc := f1.pixelformat },
    f1, r.2.2)

/-- Pixel-format codes used in the examples: the four-character codes `RGB3`, `GRBG` and
`UYVY`, least significant byte first.  Only their being non-zero matters. -/
def sample_formats : PixelFormats :=
  { ICI_FORMAT_RGB888 := 859981650, ICI_FORMAT_SGRBG8 := 1195528775,
    ICI_FORMAT_UYVY := 1498831189 }

/-- Contents of `stream_fmt` before `format_setup` runs for the first time: a zeroed
global. -/
def zero_format : StreamFormat :=
  { field := IciField.ICI_FIELD_NONE, pixelformat := 0, width := 0, height := 0,
    colorspace := 0, flags := 0, bytesperline := 0, num_planes := 0 }

/-- A CVBS setup as `CameraDevice::init` fills it, except for the port, which is `port`. -/
def cvbs_setup (port : Nat) : FormatSetup :=
  { stream := 0, stream_input := StreamInput.CVBS_INPUT, isys_w := 0, isys_h := 0,
    port := port, interlaced := 0, ow := 0, oh := 0, iw := 0, ih := 0, buffer_count := 4,
    in_fourcc := 1498831189 }

/-- Whether the index of a dequeue event lies in the pool, that is in
`[0, buffer_count)`. -/
def in_pool (s : Setup) : Event → Bool
  | Event.dequeued buf_idx _ _ _ => decide (0 ≤ buf_idx ∧ buf_idx < (s.buffer_count : Int))
  | _ => true

/-- Field tag `display->buffers[i].is_top` of the buffer with index `i`. -/
def field_tag (st : PollState) (i : Int) : Int := st.buffers.getD i.toNat 0

/-- Loop invariant of `polling_thread` over indices that lie in the pool: the pool keeps
its `buffer_count` buffers, and a pending top lies in the pool and is tagged top. -/
def pending_tag_inv (s : Setup) (st : PollState) : Prop :=
  st.buffers.length = s.buffer_count ∧
    (0 ≤ st.prev_top_idx →
      st.prev_top_idx < (s.buffer_count : Int) ∧ field_tag st st.prev_top_idx ≠ 0)

/-! # Theorems -/

/-! ## How each block of the loop body acts on the state -/

section phases
variable (s : Setup) (T : Int) (i ts : Int) (now : Timeval) (st : PollState)

@[simp] theorem pair_fields_running : (pair_fields s i st).running = st.running := by
  unfold pair_fields; split_ifs <;> rfl
@[simp] theorem pair_fields_ffr :
    (pair_fields s i st).first_frame_received = st.first_frame_received := by
  unfold pair_fields; split_ifs <;> rfl
@[simp] theorem pair_fields_fft :
    (pair_fields s i st).first_frame_time = st.first_frame_time := by
  unfold pair_fields; split_ifs <;> rfl
@[simp] theorem pair_fields_buffers : (pair_fields s i st).buffers = st.buffers := by
  unfold pair_fields; split_ifs <;> rfl
@[simp] theorem pair_fields_is_topbuf : (pair_fields s i st).is_topbuf = st.is_topbuf := by
  unfold pair_fields; split_ifs <;> rfl
@[simp] theorem pair_fields_received :
    (pair_fields s i st).received_frames = st.received_frames := by
  unfold pair_fields; split_ifs <;> rfl
@[simp] theorem pair_fields_total :
    (pair_fields s i st).total_received_frames = st.total_received_frames := by
  unfold pair_fields; split_ifs <;> rfl
@[simp] theorem pair_fields_prev_time :
    (pair_fields s i st).prev_time_th = st.prev_time_th := by
  unfold pair_fields; split_ifs <;> rfl
@[simp] theorem pair_fields_trace :
    (pair_fields s i st).trace = st.trace ++ pair_acts s i st.is_topbuf st.prev_top_idx := by
  unfold pair_fields pair_acts; split_ifs <;> simp
theorem pair_fields_prev_top :
    (pair_fields s i st).prev_top_idx =
      if s.interlaced ≠ 0 then
        if st.is_topbuf ≠ 0 then i else if st.prev_top_idx < 0 then st.prev_top_idx else -1
      else st.prev_top_idx := by
  unfold pair_fields; split_ifs <;> rfl
theorem pair_fields_disp0 :
    (pair_fields s i st).disp_bufs0 =
      if s.interlaced ≠ 0 then
        if st.is_topbuf ≠ 0 then st.disp_bufs0
        else if st.prev_top_idx < 0 then st.disp_bufs0 else some st.prev_top_idx
      else some i := by
  unfold pair_fields; split_ifs <;> rfl
theorem pair_fields_disp1 :
    (pair_fields s i st).disp_bufs1 =
      if s.interlaced ≠ 0 then
        if st.is_topbuf ≠ 0 then st.disp_bufs1
        else if st.prev_top_idx < 0 then st.disp_bufs1 else some i
      else st.disp_bufs1 := by
  unfold pair_fields; split_ifs <;> rfl

@[simp] theorem first_frame_kpi_running : (first_frame_kpi ts st).running = st.running := by
  unfold first_frame_kpi; split_ifs <;> rfl
@[simp] theorem first_frame_kpi_buffers : (first_frame_kpi ts st).buffers = st.buffers := by
  unfold first_frame_kpi; split_ifs <;> rfl
@[simp] theorem first_frame_kpi_disp0 : (first_frame_kpi ts st).disp_bufs0 = st.disp_bufs0 := by
  unfold first_frame_kpi; split_ifs <;> rfl
@[simp] theorem first_frame_kpi_disp1 : (first_frame_kpi ts st).disp_bufs1 = st.disp_bufs1 := by
  unfold first_frame_kpi; split_ifs <;> rfl
@[simp] theorem first_frame_kpi_is_topbuf : (first_frame_kpi ts st).is_topbuf = st.is_topbuf := by
  unfold first_frame_kpi; split_ifs <;> rfl
@[simp] theorem first_frame_kpi_prev_top :
    (first_frame_kpi ts st).prev_top_idx = st.prev_top_idx := by
  unfold first_frame_kpi; split_ifs <;> rfl
@[simp] theorem first_frame_kpi_received :
    (first_frame_kpi ts st).received_frames = st.received_frames := by
  unfold first_frame_kpi; split_ifs <;> rfl
@[simp] theorem first_frame_kpi_total :
    (first_frame_kpi ts st).total_received_frames = st.total_received_frames := by
  unfold first_frame_kpi; split_ifs <;> rfl
@[simp] theorem first_frame_kpi_prev_time :
    (first_frame_kpi ts st).prev_time_th = st.prev_time_th := by
  unfold first_frame_kpi; split_ifs <;> rfl
@[simp] theorem first_frame_kpi_trace :
    (first_frame_kpi ts st).trace = st.trace ++ kpi_acts ts st.first_frame_received := by
  unfold first_frame_kpi kpi_acts; split_ifs <;> simp
theorem first_frame_kpi_ffr :
    (first_frame_kpi ts st).first_frame_received =
      if st.first_frame_received = 0 then 1 else st.first_frame_received := by
  unfold first_frame_kpi; split_ifs <;> rfl
theorem first_frame_kpi_fft :
    (first_frame_kpi ts st).first_frame_time =
      if st.first_frame_received = 0 then ts else st.first_frame_time := by
  unfold first_frame_kpi; split_ifs <;> rfl

@[simp] theorem count_frame_ffr :
    (count_frame s st).first_frame_received = st.first_frame_received := by
  unfold count_frame; simp only []; split_ifs <;> rfl
@[simp] theorem count_frame_fft :
    (count_frame s st).first_frame_time = st.first_frame_time := by
  unfold count_frame; simp only []; split_ifs <;> rfl
@[simp] theorem count_frame_buffers : (count_frame s st).buffers = st.buffers := by
  unfold count_frame; simp only []; split_ifs <;> rfl
@[simp] theorem count_frame_disp0 : (count_frame s st).disp_bufs0 = st.disp_bufs0 := by
  unfold count_frame; simp only []; split_ifs <;> rfl
@[simp] theorem count_frame_disp1 : (count_frame s st).disp_bufs1 = st.disp_bufs1 := by
  unfold count_frame; simp only []; split_ifs <;> rfl
@[simp] theorem count_frame_is_topbuf : (count_frame s st).is_topbuf = st.is_topbuf := by
  unfold count_frame; simp only []; split_ifs <;> rfl
@[simp] theorem count_frame_prev_top : (count_frame s st).prev_top_idx = st.prev_top_idx := by
  unfold count_frame; simp only []; split_ifs <;> rfl
@[simp] theorem count_frame_prev_time : (count_frame s st).prev_time_th = st.prev_time_th := by
  unfold count_frame; simp only []; split_ifs <;> rfl
@[simp] theorem count_frame_received :
    (count_frame s st).received_frames = (st.received_frames + 1) % UINT_RANGE := by
  unfold count_frame; simp only []; split_ifs <;> rfl
@[simp] theorem count_frame_total :
    (count_frame s st).total_received_frames = (st.total_received_frames + 1) % UINT_RANGE := by
  unfold count_frame; simp only []; split_ifs <;> rfl
@[simp] theorem count_frame_trace :
    (count_frame s st).trace = st.trace ++ budget_acts s st.total_received_frames := by
  by_cases h : s.frames_count ≠ 0 ∧ (st.total_received_frames + 1) % UINT_RANGE ≥ s.frames_count
  · simp only [count_frame, budget_acts, budget_reached]
    rw [if_pos h, if_pos (decide_eq_true h)]
  · simp only [count_frame, budget_acts, budget_reached]
    rw [if_neg h, if_neg (by rw [decide_eq_false h]; exact Bool.false_ne_true)]
    exact (List.append_nil _).symm
theorem count_frame_running :
    (count_frame s st).running =
      if budget_reached s st.total_received_frames then 0 else st.running := by
  by_cases h : s.frames_count ≠ 0 ∧ (st.total_received_frames + 1) % UINT_RANGE ≥ s.frames_count
  · simp only [count_frame, budget_reached]
    rw [if_pos h, if_pos (decide_eq_true h)]
  · simp only [count_frame, budget_reached]
    rw [if_neg h, if_neg (by rw [decide_eq_false h]; exact Bool.false_ne_true)]

@[simp] theorem measure_fps_running : (measure_fps T now st).running = st.running := by
  unfold measure_fps; split_ifs <;> rfl
@[simp] theorem measure_fps_ffr :
    (measure_fps T now st).first_frame_received = st.first_frame_received := by
  unfold measure_fps; split_ifs <;> rfl
@[simp] theorem measure_fps_fft :
    (measure_fps T now st).first_frame_time = st.first_frame_time := by
  unfold measure_fps; split_ifs <;> rfl
@[simp] theorem measure_fps_buffers : (measure_fps T now st).buffers = st.buffers := by
  unfold measure_fps; split_ifs <;> rfl
@[simp] theorem measure_fps_disp0 : (measure_fps T now st).disp_bufs0 = st.disp_bufs0 := by
  unfold measure_fps; split_ifs <;> rfl
@[simp] theorem measure_fps_disp1 : (measure_fps T now st).disp_bufs1 = st.disp_bufs1 := by
  unfold measure_fps; split_ifs <;> rfl
@[simp] theorem measure_fps_is_topbuf : (measure_fps T now st).is_topbuf = st.is_topbuf := by
  unfold measure_fps; split_ifs <;> rfl
@[simp] theorem measure_fps_prev_top : (measure_fps T now st).prev_top_idx = st.prev_top_idx := by
  unfold measure_fps; split_ifs <;> rfl
@[simp] theorem measure_fps_total :
    (measure_fps T now st).total_received_frames = st.total_received_frames := by
  unfold measure_fps; split_ifs <;> rfl
@[simp] theorem measure_fps_trace :
    (measure_fps T now st).trace =
      st.trace ++ fps_acts T now st.prev_time_th st.received_frames := by
  unfold measure_fps fps_acts; split_ifs <;> simp

end phases

/-! ## One iteration that dequeues an index passing the test of line 85 -/

section iteration
variable (s : Setup) (T : Int) (i v ts : Int) (now : Timeval) (st : PollState)

theorem iteration_eq (h : ¬(i > (s.buffer_count : Int) ∨ i < 0)) :
    polling_iteration s T (Event.dequeued i v ts now) st =
      (measure_fps T now (count_frame s (first_frame_kpi ts
        { pair_fields s i
            { st with
              is_topbuf := v
              buffers := st.buffers.set i.toNat v
              trace := st.trace ++ [Action.dequeue i] ++ [Action.store_is_top i v] } with
          trace := (pair_fields s i
            { st with
              is_topbuf := v
              buffers := st.buffers.set i.toNat v
              trace := st.trace ++ [Action.dequeue i] ++ [Action.store_is_top i v] }).trace ++
              [Action.queue_buffer i] })), false) := by
  simp only [polling_iteration, if_neg h]

theorem iteration_trace (h : ¬(i > (s.buffer_count : Int) ∨ i < 0)) :
    (polling_iteration s T (Event.dequeued i v ts now) st).1.trace =
      st.trace ++ iteration_acts s T i v ts now st := by
  rw [iteration_eq s T i v ts now st h]
  simp [iteration_acts]

theorem iteration_running (h : ¬(i > (s.buffer_count : Int) ∨ i < 0)) :
    (polling_iteration s T (Event.dequeued i v ts now) st).1.running =
      if budget_reached s st.total_received_frames then 0 else st.running := by
  rw [iteration_eq s T i v ts now st h]
  simp [count_frame_running]

theorem iteration_total (h : ¬(i > (s.buffer_count : Int) ∨ i < 0)) :
    (polling_iteration s T (Event.dequeued i v ts now) st).1.total_received_frames =
      (st.total_received_frames + 1) % UINT_RANGE := by
  rw [iteration_eq s T i v ts now st h]
  simp

theorem iteration_ffr (h : ¬(i > (s.buffer_count : Int) ∨ i < 0)) :
    (polling_iteration s T (Event.dequeued i v ts now) st).1.first_frame_received =
      if st.first_frame_received = 0 then 1 else st.first_frame_received := by
  rw [iteration_eq s T i v ts now st h]
  simp [first_frame_kpi_ffr]

theorem iteration_fft (h : ¬(i > (s.buffer_count : Int) ∨ i < 0)) :
    (polling_iteration s T (Event.dequeued i v ts now) st).1.first_frame_time =
      if st.first_frame_received = 0 then ts else st.first_frame_time := by
  rw [iteration_eq s T i v ts now st h]
  simp [first_frame_kpi_fft]

theorem iteration_prev_top (h : ¬(i > (s.buffer_count : Int) ∨ i < 0)) :
    (polling_iteration s T (Event.dequeued i v ts now) st).1.prev_top_idx =
      if s.interlaced ≠ 0 then
        if v ≠ 0 then i else if st.prev_top_idx < 0 then st.prev_top_idx else -1
      else st.prev_top_idx := by
  rw [iteration_eq s T i v ts now st h]
  simp [pair_fields_prev_top]

theorem iteration_disp0 (h : ¬(i > (s.buffer_count : Int) ∨ i < 0)) :
    (polling_iteration s T (Event.dequeued i v ts now) st).1.disp_bufs0 =
      if s.interlaced ≠ 0 then
        if v ≠ 0 then st.disp_bufs0
        else if st.prev_top_idx < 0 then st.disp_bufs0 else some st.prev_top_idx
      else some i := by
  rw [iteration_eq s T i v ts now st h]
  simp [pair_fields_disp0]

theorem iteration_disp1 (h : ¬(i > (s.buffer_count : Int) ∨ i < 0)) :
    (polling_iteration s T (Event.dequeued i v ts now) st).1.disp_bufs1 =
      if s.interlaced ≠ 0 then
        if v ≠ 0 then st.disp_bufs1
        else if st.prev_top_idx < 0 then st.disp_bufs1 else some i
      else st.disp_bufs1 := by
  rw [iteration_eq s T i v ts now st h]
  simp [pair_fields_disp1]

theorem iteration_continues (h : ¬(i > (s.buffer_count : Int) ∨ i < 0)) :
    (polling_iteration s T (Event.dequeued i v ts now) st).2 = false := by
  rw [iteration_eq s T i v ts now st h]

end iteration

/-! ## Ownership transfers -/

theorem pair_acts_transfer (s : Setup) (i v p : Int) :
    (pair_acts s i v p).filter is_transfer = [] ∧ dequeued_indices (pair_acts s i v p) = [] ∧
      requeued_indices (pair_acts s i v p) = [] := by
  unfold pair_acts; split_ifs <;> simp [is_transfer, dequeued_indices, requeued_indices]

theorem kpi_acts_transfer (ts f : Int) :
    (kpi_acts ts f).filter is_transfer = [] ∧ dequeued_indices (kpi_acts ts f) = [] ∧
      requeued_indices (kpi_acts ts f) = [] := by
  unfold kpi_acts; split_ifs <;> simp [is_transfer, dequeued_indices, requeued_indices]

theorem budget_acts_transfer (s : Setup) (n : Nat) :
    (budget_acts s n).filter is_transfer = [] ∧ dequeued_indices (budget_acts s n) = [] ∧
      requeued_indices (budget_acts s n) = [] := by
  unfold budget_acts; split_ifs <;> simp [is_transfer, dequeued_indices, requeued_indices]

theorem fps_acts_transfer (T : Int) (now prev : Timeval) (n : Nat) :
    (fps_acts T now prev n).filter is_transfer = [] ∧
      dequeued_indices (fps_acts T now prev n) = [] ∧
      requeued_indices (fps_acts T now prev n) = [] := by
  unfold fps_acts; split_ifs <;> simp [is_transfer, dequeued_indices, requeued_indices]

theorem dequeued_indices_append (a b : List Action) :
    dequeued_indices (a ++ b) = dequeued_indices a ++ dequeued_indices b := by
  simp [dequeued_indices, List.filterMap_append]

theorem requeued_indices_append (a b : List Action) :
    requeued_indices (a ++ b) = requeued_indices a ++ requeued_indices b := by
  simp [requeued_indices, List.filterMap_append]

theorem iteration_acts_transfer (s : Setup) (T : Int) (i v ts : Int) (now : Timeval)
    (st : PollState) :
    (iteration_acts s T i v ts now st).filter is_transfer = transfer_pair i ∧
      dequeued_indices (iteration_acts s T i v ts now st) = [i] ∧
      requeued_indices (iteration_acts s T i v ts now st) = [i] := by
  obtain ⟨p1, p2, p3⟩ := pair_acts_transfer s i v st.prev_top_idx
  obtain ⟨k1, k2, k3⟩ := kpi_acts_transfer ts st.first_frame_received
  obtain ⟨b1, b2, b3⟩ := budget_acts_transfer s st.total_received_frames
  obtain ⟨f1, f2, f3⟩ :=
    fps_acts_transfer T now st.prev_time_th ((st.received_frames + 1) % UINT_RANGE)
  refine ⟨?_, ?_, ?_⟩
  · simp only [iteration_acts, List.filter_append, p1, k1, b1, f1]
    simp [is_transfer, transfer_pair]
  · simp only [iteration_acts, dequeued_indices_append, p2, k2, b2, f2]
    simp [dequeued_indices]
  · simp only [iteration_acts, requeued_indices_append, p3, k3, b3, f3]
    simp [requeued_indices]

theorem loop_transfers (s : Setup) (T : Int) (es : List Event)
    (h : ∀ e ∈ es, passes_validation s e = true) (st : PollState) :
    ∃ l : List Int, l <+: event_indices es ∧
      (polling_loop s T es st).trace.filter is_transfer =
        st.trace.filter is_transfer ++ l.flatMap transfer_pair ∧
      dequeued_indices (polling_loop s T es st).trace = dequeued_indices st.trace ++ l ∧
      requeued_indices (polling_loop s T es st).trace = requeued_indices st.trace ++ l := by
  induction es generalizing st with
  | nil => exact ⟨[], by simp [event_indices], by simp [polling_loop], by simp [polling_loop],
      by simp [polling_loop]⟩
  | cons e es ih =>
    have hes : ∀ e ∈ es, passes_validation s e = true := fun x hx =>
      h x (List.mem_cons_of_mem _ hx)
    have he : passes_validation s e = true := h e (List.mem_cons_self _ _)
    by_cases hr : st.running = 0
    · exact ⟨[], List.nil_prefix, by simp [polling_loop, hr], by simp [polling_loop, hr],
        by simp [polling_loop, hr]⟩
    · cases e with
      | timeout =>
        obtain ⟨l, hl, h1, h2, h3⟩ := ih hes st
        exact ⟨l, by simpa [event_indices] using hl,
          by simpa [polling_loop, hr, polling_iteration] using h1,
          by simpa [polling_loop, hr, polling_iteration] using h2,
          by simpa [polling_loop, hr, polling_iteration] using h3⟩
      | no_pollin =>
        obtain ⟨l, hl, h1, h2, h3⟩ := ih hes st
        exact ⟨l, by simpa [event_indices] using hl,
          by simpa [polling_loop, hr, polling_iteration] using h1,
          by simpa [polling_loop, hr, polling_iteration] using h2,
          by simpa [polling_loop, hr, polling_iteration] using h3⟩
      | dequeued i v ts now =>
        have hv : ¬(i > (s.buffer_count : Int) ∨ i < 0) := by
          simpa [passes_validation] using he
        obtain ⟨a1, a2, a3⟩ := iteration_acts_transfer s T i v ts now st
        obtain ⟨l, hl, h1, h2, h3⟩ :=
          ih hes (polling_iteration s T (Event.dequeued i v ts now) st).1
        rw [iteration_trace s T i v ts now st hv] at h1 h2 h3
        refine ⟨i :: l, ?_, ?_, ?_, ?_⟩
        · simpa [event_indices] using hl
        · simp only [polling_loop, if_neg hr, iteration_continues s T i v ts now st hv]
          simp only [Bool.false_eq_true, if_false]
          rw [h1, List.filter_append, a1]
          simp [List.flatMap]
        · simp only [polling_loop, if_neg hr, iteration_continues s T i v ts now st hv]
          simp only [Bool.false_eq_true, if_false]
          rw [h2, dequeued_indices_append, a2]
          simp
        · simp only [polling_loop, if_neg hr, iteration_continues s T i v ts now st hv]
          simp only [Bool.false_eq_true, if_false]
          rw [h3, requeued_indices_append, a3]
          simp

/-! ## Field pairing -/

theorem iteration_abort (s : Setup) (T : Int) (i v ts : Int) (now : Timeval) (st : PollState)
    (h : i > (s.buffer_count : Int) ∨ i < 0) :
    polling_iteration s T (Event.dequeued i v ts now) st =
      ({ st with
          is_topbuf := v
          trace := st.trace ++ [Action.dequeue i] ++ [Action.failed_deque] }, true) := by
  simp only [polling_iteration, if_pos h]

theorem top_pending_append (a b : List Action) :
    top_pending (a ++ b) = b.foldl top_pending_step (top_pending a) := by
  simp [top_pending, List.foldl_append]

theorem kpi_acts_pending (ts f : Int) (p : Bool) :
    (kpi_acts ts f).foldl top_pending_step p = p := by
  unfold kpi_acts; split_ifs <;> simp [top_pending_step]

theorem budget_acts_pending (s : Setup) (n : Nat) (p : Bool) :
    (budget_acts s n).foldl top_pending_step p = p := by
  unfold budget_acts; split_ifs <;> simp [top_pending_step]

theorem fps_acts_pending (T : Int) (now prev : Timeval) (n : Nat) (p : Bool) :
    (fps_acts T now prev n).foldl top_pending_step p = p := by
  unfold fps_acts; split_ifs <;> simp [top_pending_step]

theorem iteration_acts_pending (s : Setup) (T : Int) (i v ts : Int) (now : Timeval)
    (st : PollState) (p : Bool) :
    (iteration_acts s T i v ts now st).foldl top_pending_step p =
      (pair_acts s i v st.prev_top_idx).foldl top_pending_step (if v ≠ 0 then true else p) := by
  simp only [iteration_acts, List.foldl_append, fps_acts_pending, budget_acts_pending,
    kpi_acts_pending]
  simp [top_pending_step]

theorem iteration_pending_inv (s : Setup) (T : Int) (e : Event) (st : PollState)
    (hi : s.interlaced ≠ 0) (h : pending_inv st) :
    pending_inv (polling_iteration s T e st).1 := by
  cases e with
  | timeout => simpa [polling_iteration] using h
  | no_pollin => simpa [polling_iteration] using h
  | dequeued i v ts now =>
    unfold pending_inv at h ⊢
    by_cases hv : i > (s.buffer_count : Int) ∨ i < 0
    · rw [iteration_abort s T i v ts now st hv]
      simp only [top_pending_append, List.foldl_cons, List.foldl_nil, top_pending_step]
      exact h
    · rw [iteration_prev_top s T i v ts now st hv, iteration_trace s T i v ts now st hv,
        top_pending_append, iteration_acts_pending, ← h]
      have hi0 : 0 ≤ i := by
        have := not_or.mp hv
        omega
      unfold pair_acts
      by_cases hv0 : v = 0
      · by_cases hp : st.prev_top_idx < 0
        · simp [hi, hv0, hp, top_pending_step]
        · simp [hi, hv0, hp, top_pending_step]
      · simp [hi, hv0, hi0]

theorem loop_pending_inv (s : Setup) (T : Int) (hi : s.interlaced ≠ 0) (es : List Event) :
    ∀ st : PollState, pending_inv st → pending_inv (polling_loop s T es st) := by
  induction es with
  | nil => intro st h; simpa [polling_loop] using h
  | cons e es ih =>
    intro st h
    unfold polling_loop
    split_ifs with h1 h2
    · exact h
    · exact iteration_pending_inv s T e st hi h
    · exact ih _ (iteration_pending_inv s T e st hi h)

theorem pair_acts_no_write (s : Setup) (i v p : Int) (hi : s.interlaced ≠ 0)
    (h : ¬(v = 0 ∧ 0 ≤ p)) : (pair_acts s i v p).filter is_disp_write = [] := by
  unfold pair_acts
  by_cases hv0 : v = 0
  · have hp : p < 0 := by
      by_contra hc
      exact h ⟨hv0, by omega⟩
    simp [hi, hv0, hp, is_disp_write]
  · simp [hi, hv0]

theorem kpi_acts_no_write (ts f : Int) : (kpi_acts ts f).filter is_disp_write = [] := by
  unfold kpi_acts; split_ifs <;> simp [is_disp_write]

theorem budget_acts_no_write (s : Setup) (n : Nat) :
    (budget_acts s n).filter is_disp_write = [] := by
  unfold budget_acts; split_ifs <;> simp [is_disp_write]

theorem fps_acts_no_write (T : Int) (now prev : Timeval) (n : Nat) :
    (fps_acts T now prev n).filter is_disp_write = [] := by
  unfold fps_acts; split_ifs <;> simp [is_disp_write]

theorem iteration_no_write (s : Setup) (T : Int) (e : Event) (st : PollState)
    (hi : s.interlaced ≠ 0)
    (h : ¬(dequeues_bottom e = true ∧ 0 ≤ st.prev_top_idx)) :
    (polling_iteration s T e st).1.disp_bufs0 = st.disp_bufs0 ∧
      (polling_iteration s T e st).1.disp_bufs1 = st.disp_bufs1 ∧
      (polling_iteration s T e st).1.trace.filter is_disp_write =
        st.trace.filter is_disp_write := by
  cases e with
  | timeout => simp [polling_iteration]
  | no_pollin => simp [polling_iteration]
  | dequeued i v ts now =>
    have hc : ¬(v = 0 ∧ 0 ≤ st.prev_top_idx) := by
      rintro ⟨hv0, hp⟩
      exact h ⟨by simp [dequeues_bottom, hv0], hp⟩
    by_cases hv : i > (s.buffer_count : Int) ∨ i < 0
    · rw [iteration_abort s T i v ts now st hv]
      simp [List.filter_append, is_disp_write]
    · rw [iteration_disp0 s T i v ts now st hv, iteration_disp1 s T i v ts now st hv,
        iteration_trace s T i v ts now st hv]
      refine ⟨?_, ?_, ?_⟩
      · by_cases hv0 : v = 0
        · have hp : st.prev_top_idx < 0 := by
            by_contra hcc
            exact hc ⟨hv0, by omega⟩
          simp [hi, hv0, hp]
        · simp [hi, hv0]
      · by_cases hv0 : v = 0
        · have hp : st.prev_top_idx < 0 := by
            by_contra hcc
            exact hc ⟨hv0, by omega⟩
          simp [hi, hv0, hp]
        · simp [hi, hv0]
      · simp only [iteration_acts, List.filter_append, pair_acts_no_write s i v _ hi hc,
          kpi_acts_no_write, budget_acts_no_write, fps_acts_no_write]
        simp [is_disp_write]

/-- Claim C2 (as amended): in interlaced mode, after every sequence of events, a top is
pending (`prev_top_idx >= 0`) exactly when a top field has been dequeued since the last
publish; an iteration stores into `disp_bufs` only when it dequeues a bottom field while a
top is pending; and an iteration that dequeues a bottom, with an index that passes the
test of line 85, while no top is pending leaves `disp_bufs[0]` and `disp_bufs[1]`
unchanged and does not break out of the loop: `running` keeps its value unless the frame
budget is reached in that iteration, in which case line 118 clears it. -/
theorem interlaced_display_write_needs_pending_top (s : Setup) (T : Int) (running ffr : Int)
    (t0 : Timeval) (es : List Event) (e : Event) (hi : s.interlaced ≠ 0) :
    (0 ≤ (polling_thread s T running ffr t0 es).prev_top_idx ↔
        top_pending (polling_thread s T running ffr t0 es).trace = true) ∧
      (¬(dequeues_bottom e = true ∧
            top_pending (polling_thread s T running ffr t0 es).trace = true) →
        (polling_iteration s T e (polling_thread s T running ffr t0 es)).1.disp_bufs0 =
            (polling_thread s T running ffr t0 es).disp_bufs0 ∧
          (polling_iteration s T e (polling_thread s T running ffr t0 es)).1.disp_bufs1 =
            (polling_thread s T running ffr t0 es).disp_bufs1 ∧
          (polling_iteration s T e
              (polling_thread s T running ffr t0 es)).1.trace.filter is_disp_write =
            (polling_thread s T running ffr t0 es).trace.filter is_disp_write) ∧
      (dequeues_bottom e = true → passes_validation s e = true →
        top_pending (polling_thread s T running ffr t0 es).trace = false →
        (polling_iteration s T e (polling_thread s T running ffr t0 es)).2 = false ∧
          (polling_iteration s T e (polling_thread s T running ffr t0 es)).1.running =
            if budget_reached s (polling_thread s T running ffr t0 es).total_received_frames
            then 0 else (polling_thread s T running ffr t0 es).running) := by
  have hinv : pending_inv (polling_thread s T running ffr t0 es) :=
    loop_pending_inv s T hi es _ (by simp [pending_inv, polling_init, top_pending])
  have hiff : 0 ≤ (polling_thread s T running ffr t0 es).prev_top_idx ↔
      top_pending (polling_thread s T running ffr t0 es).trace = true := by
    unfold pending_inv at hinv
    rw [← hinv]
    simp
  refine ⟨hiff, ?_, ?_⟩
  · intro h
    apply iteration_no_write s T e _ hi
    rintro ⟨hb, hp⟩
    exact h ⟨hb, hiff.mp hp⟩
  · intro hb hv _
    cases e with
    | timeout => simp [dequeues_bottom] at hb
    | no_pollin => simp [dequeues_bottom] at hb
    | dequeued b v ts now =>
      have hv2 : ¬(b > (s.buffer_count : Int) ∨ b < 0) := by
        simpa [passes_validation] using hv
      exact ⟨iteration_continues s T b v ts now _ hv2, iteration_running s T b v ts now _ hv2⟩

/-- Witness of `interlaced_display_write_needs_pending_top`: after a top and its bottom
have been published, a second bottom arrives with no top pending; the published pair
stays in place. -/
theorem interlaced_display_write_needs_pending_top_witness :
    interlaced_setup.interlaced ≠ 0 ∧
      (polling_iteration interlaced_setup 1 (Event.dequeued 2 0 7 ⟨0, 300⟩)
        (polling_thread interlaced_setup 1 1 0 ⟨0, 0⟩
          [Event.dequeued 0 1 5 ⟨0, 100⟩, Event.dequeued 1 0 6 ⟨0, 200⟩])).1.disp_bufs1 =
        some 1 :=
  ⟨by decide,
    ((interlaced_display_write_needs_pending_top interlaced_setup 1 1 0 ⟨0, 0⟩
      [Event.dequeued 0 1 5 ⟨0, 100⟩, Event.dequeued 1 0 6 ⟨0, 200⟩]
      (Event.dequeued 2 0 7 ⟨0, 300⟩) (by decide)).2.1 (by decide)).2.1.trans (by decide)⟩

/-- Counterexample to claim C2 as stated: with a frame budget of one, the first
iteration dequeues a bottom field (index 0) while no top is pending, and that iteration
clears `running`; the loop stops there and the two buffers that follow are never
dequeued. -/
theorem underrun_iteration_stops_loop_on_budget :
    (polling_init ⟨4, 1, 1⟩ 1 0 ⟨0, 0⟩).prev_top_idx < 0 ∧
      (polling_init ⟨4, 1, 1⟩ 1 0 ⟨0, 0⟩).running = 1 ∧
      (polling_iteration ⟨4, 1, 1⟩ 1 (Event.dequeued 0 0 5 ⟨0, 100⟩)
        (polling_init ⟨4, 1, 1⟩ 1 0 ⟨0, 0⟩)).1.running = 0 ∧
      dequeued_indices (polling_thread ⟨4, 1, 1⟩ 1 1 0 ⟨0, 0⟩
        [Event.dequeued 0 0 5 ⟨0, 100⟩, Event.dequeued 1 1 6 ⟨0, 200⟩,
          Event.dequeued 2 0 7 ⟨0, 300⟩]).trace = [0] := by
  decide

/-- Claim C3: in interlaced mode, when a top buffer with index `t` is pending
(`prev_top_idx = t`, non-negative) and a bottom buffer is dequeued with an index `b` that
passes the test of line 85, then after that iteration `disp_bufs[0]` points to
`buffers[t]`, `disp_bufs[1]` points to `buffers[b]` and `prev_top_idx` is -1. -/
theorem bottom_completes_pending_top (s : Setup) (T : Int) (st : PollState) (t b ts : Int)
    (now : Timeval) (hi : s.interlaced ≠ 0) (ht : st.prev_top_idx = t) (ht0 : 0 ≤ t)
    (hb : ¬(b > (s.buffer_count : Int) ∨ b < 0)) :
    (polling_iteration s T (Event.dequeued b 0 ts now) st).1.disp_bufs0 = some t ∧
      (polling_iteration s T (Event.dequeued b 0 ts now) st).1.disp_bufs1 = some b ∧
      (polling_iteration s T (Event.dequeued b 0 ts now) st).1.prev_top_idx = -1 ∧
      (polling_iteration s T (Event.dequeued b 0 ts now) st).1.trace.filter is_disp_write =
        st.trace.filter is_disp_write ++ [Action.set_disp0 t, Action.set_disp1 b] := by
  subst ht
  have hp : ¬st.prev_top_idx < 0 := by omega
  rw [iteration_disp0 s T b 0 ts now st hb, iteration_disp1 s T b 0 ts now st hb,
    iteration_prev_top s T b 0 ts now st hb, iteration_trace s T b 0 ts now st hb]
  refine ⟨by simp [hi, hp], by simp [hi, hp], by simp [hi, hp], ?_⟩
  simp only [iteration_acts, List.filter_append, kpi_acts_no_write, budget_acts_no_write,
    fps_acts_no_write]
  simp [pair_acts, hi, hp, is_disp_write]

/-- Witness of `bottom_completes_pending_top`: top 2 is pending when bottom 3 arrives. -/
theorem bottom_completes_pending_top_witness :
    (polling_iteration interlaced_setup 1 (Event.dequeued 3 0 6 ⟨0, 200⟩)
        (polling_thread interlaced_setup 1 1 0 ⟨0, 0⟩
          [Event.dequeued 2 1 5 ⟨0, 100⟩])).1.disp_bufs0 = some 2 ∧
      (polling_iteration interlaced_setup 1 (Event.dequeued 3 0 6 ⟨0, 200⟩)
        (polling_thread interlaced_setup 1 1 0 ⟨0, 0⟩
          [Event.dequeued 2 1 5 ⟨0, 100⟩])).1.disp_bufs1 = some 3 :=
  ⟨(bottom_completes_pending_top interlaced_setup 1
      (polling_thread interlaced_setup 1 1 0 ⟨0, 0⟩ [Event.dequeued 2 1 5 ⟨0, 100⟩])
      2 3 6 ⟨0, 200⟩ (by decide) (by decide) (by decide) (by decide)).1,
    (bottom_completes_pending_top interlaced_setup 1
      (polling_thread interlaced_setup 1 1 0 ⟨0, 0⟩ [Event.dequeued 2 1 5 ⟨0, 100⟩])
      2 3 6 ⟨0, 200⟩ (by decide) (by decide) (by decide) (by decide)).2.1⟩

/-! ## Index validation and abort -/

/-- Claim C4, the code at the failing input: with a pool of four buffers, an iteration in
which `dequeue_buffer` returns 4 is not aborted by the test of line 85; it goes on to
store into `buffers[4]`, point `disp_bufs[0]` at it and requeue it, all outside the
pool, whose valid indices are 0 to 3. -/
theorem validation_admits_index_buffer_count :
    progressive_setup.buffer_count = 4 ∧
      (polling_init progressive_setup 1 0 ⟨0, 0⟩).buffers.length = 4 ∧
      (polling_iteration progressive_setup 1 (Event.dequeued 4 0 5 ⟨0, 100⟩)
        (polling_init progressive_setup 1 0 ⟨0, 0⟩)).2 = false ∧
      (polling_iteration progressive_setup 1 (Event.dequeued 4 0 5 ⟨0, 100⟩)
        (polling_init progressive_setup 1 0 ⟨0, 0⟩)).1.disp_bufs0 = some 4 ∧
      (polling_iteration progressive_setup 1 (Event.dequeued 4 0 5 ⟨0, 100⟩)
        (polling_init progressive_setup 1 0 ⟨0, 0⟩)).1.trace.filterMap buffer_access =
        [4, 4, 4] := by
  decide

/-- Behaviour of the test of line 85 in general: an index above `buffer_count` or below
zero breaks out of the loop before any element of `buffers` is touched, and any index
from 0 to `buffer_count` inclusive is processed. -/
theorem validation_range (s : Setup) (T : Int) (i v ts : Int) (now : Timeval)
    (st : PollState) :
    ((i > (s.buffer_count : Int) ∨ i < 0) →
      (polling_iteration s T (Event.dequeued i v ts now) st).2 = true ∧
        (polling_iteration s T (Event.dequeued i v ts now) st).1.trace.filterMap buffer_access =
          st.trace.filterMap buffer_access ∧
        (polling_iteration s T (Event.dequeued i v ts now) st).1.disp_bufs0 = st.disp_bufs0 ∧
        (polling_iteration s T (Event.dequeued i v ts now) st).1.disp_bufs1 = st.disp_bufs1 ∧
        (polling_iteration s T (Event.dequeued i v ts now) st).1.running = st.running) ∧
      ((0 ≤ i ∧ i ≤ (s.buffer_count : Int)) →
        (polling_iteration s T (Event.dequeued i v ts now) st).2 = false ∧
          Action.queue_buffer i ∈
            (polling_iteration s T (Event.dequeued i v ts now) st).1.trace) := by
  constructor
  · intro h
    rw [iteration_abort s T i v ts now st h]
    simp [List.filterMap_append, buffer_access]
  · intro h
    have hv : ¬(i > (s.buffer_count : Int) ∨ i < 0) := by omega
    rw [iteration_trace s T i v ts now st hv]
    exact ⟨iteration_continues s T i v ts now st hv, by simp [iteration_acts]⟩

/-! ## The main display loop -/

theorem render_loop_spec (ds : List Dispatch) :
    ∀ st : RenderState, st.exited = false →
      (render_loop ds st).dispatches =
          st.dispatches +
            min ds.length
              ((({ ret := st.ret, running := st.running } : Dispatch) :: ds).takeWhile
                dispatch_again).length ∧
        ((render_loop ds st).exited = true ↔
          ((render_loop ds st).running = 0 ∨ (render_loop ds st).ret = -1)) ∧
        ((render_loop ds st).exited = true ↔
          ((({ ret := st.ret, running := st.running } : Dispatch) :: ds).takeWhile
            dispatch_again).length ≤ ds.length) := by
  induction ds with
  | nil =>
    intro st hx
    by_cases h : st.running ≠ 0 ∧ st.ret ≠ -1
    · have hd : dispatch_again { ret := st.ret, running := st.running } = true := by
        simpa [dispatch_again] using h
      simp only [render_loop, if_pos h, List.takeWhile_cons, hd, if_true, List.takeWhile_nil,
        List.length_nil, List.length_cons, hx]
      refine ⟨by simp, ?_, by simp⟩
      constructor
      · intro hc; exact absurd hc (by simp)
      · rintro (h0 | h1)
        · exact absurd h0 h.1
        · exact absurd h1 h.2
    · have hd : dispatch_again { ret := st.ret, running := st.running } = false := by
        simpa [dispatch_again] using h
      simp only [render_loop, if_neg h, List.takeWhile_cons, hd, List.length_nil]
      refine ⟨by simp, ?_, by simp⟩
      constructor
      · intro _
        by_contra hc
        exact h ⟨fun h0 => hc (Or.inl h0), fun h1 => hc (Or.inr h1)⟩
      · intro _; trivial
  | cons d ds ih =>
    intro st hx
    by_cases h : st.running ≠ 0 ∧ st.ret ≠ -1
    · have hd : dispatch_again { ret := st.ret, running := st.running } = true := by
        simpa [dispatch_again] using h
      obtain ⟨i1, i2, i3⟩ := ih
        { running := d.running, ret := d.ret, dispatches := st.dispatches + 1, exited := false }
        rfl
      have j1 : (render_loop ds ⟨d.running, d.ret, st.dispatches + 1, false⟩).dispatches =
          st.dispatches + 1 + min ds.length ((d :: ds).takeWhile dispatch_again).length := i1
      have j3 : (render_loop ds ⟨d.running, d.ret, st.dispatches + 1, false⟩).exited = true ↔
          ((d :: ds).takeWhile dispatch_again).length ≤ ds.length := i3
      simp only [render_loop, if_pos h]
      refine ⟨?_, i2, ?_⟩
      · rw [j1, List.takeWhile_cons (l := d :: ds), hd]
        simp only [if_true, List.length_cons]
        omega
      · rw [j3, List.takeWhile_cons (l := d :: ds), hd]
        simp only [if_true, List.length_cons]
        omega
    · have hd : dispatch_again { ret := st.ret, running := st.running } = false := by
        simpa [dispatch_again] using h
      simp only [render_loop, if_neg h, List.takeWhile_cons, hd, List.length_nil]
      refine ⟨by simp, ?_, by simp⟩
      constructor
      · intro _
        by_contra hc
        exact h ⟨fun h0 => hc (Or.inl h0), fun h1 => hc (Or.inr h1)⟩
      · intro _; trivial

/-- Claim C5, the code at the failing input: `dequeue_buffer` returns -1 while `running`
is 1.  The iteration breaks out of the acquisition loop and `running` is still 1 when
`polling_thread` returns; the main display loop, which tests `running`, then goes on
dispatching for as long as dispatches succeed (here three out of three) and does not
exit. -/
theorem abort_leaves_running_set :
    (polling_iteration progressive_setup 1 (Event.dequeued (-1) 0 5 ⟨0, 100⟩)
        (polling_init progressive_setup 1 0 ⟨0, 0⟩)).2 = true ∧
      (polling_thread progressive_setup 1 1 0 ⟨0, 0⟩
        [Event.dequeued (-1) 0 5 ⟨0, 100⟩, Event.dequeued 0 0 6 ⟨0, 200⟩]).running = 1 ∧
      (polling_thread progressive_setup 1 1 0 ⟨0, 0⟩
        [Event.dequeued (-1) 0 5 ⟨0, 100⟩, Event.dequeued 0 0 6 ⟨0, 200⟩]).trace =
        [Action.dequeue (-1), Action.failed_deque] ∧
      (render_loop [⟨0, 1⟩, ⟨0, 1⟩, ⟨0, 1⟩] (render_init 1)).exited = false ∧
      (render_loop [⟨0, 1⟩, ⟨0, 1⟩, ⟨0, 1⟩] (render_init 1)).dispatches = 3 := by
  decide

/-- Claim C10: the main display loop of `iciStartDisplay` makes another call of
`wl_display_dispatch` exactly when `running` is non-zero and the previous dispatch did not
return -1.  Over any sequence of dispatch results, the number of dispatches made is the
number of consecutive loop tests, from the first, at which `running != 0 && ret != -1`
held (as far as results were delivered); the loop has exited exactly when one of these
tests failed, and when it has exited `running` is 0 or `ret` is -1. -/
theorem display_loop_runs_while_running_and_no_error (running : Int) (ds : List Dispatch) :
    (render_loop ds (render_init running)).dispatches =
        min ds.length
          ((({ ret := 0, running := running } : Dispatch) :: ds).takeWhile
            dispatch_again).length ∧
      ((render_loop ds (render_init running)).exited = true ↔
        ((render_loop ds (render_init running)).running = 0 ∨
          (render_loop ds (render_init running)).ret = -1)) ∧
      ((render_loop ds (render_init running)).exited = true ↔
        ((({ ret := 0, running := running } : Dispatch) :: ds).takeWhile
          dispatch_again).length ≤ ds.length) := by
  obtain ⟨h1, h2, h3⟩ := render_loop_spec ds (render_init running) rfl
  refine ⟨?_, h2, h3⟩
  rw [h1]
  simp [render_init]

/-! ## The frame budget -/

theorem loop_stopped (s : Setup) (T : Int) (es : List Event) (st : PollState)
    (h : st.running = 0) : polling_loop s T es st = st := by
  cases es <;> simp [polling_loop, h]

theorem pair_acts_clear (s : Setup) (i v p : Int) :
    (pair_acts s i v p).countP is_clear_running = 0 := by
  unfold pair_acts; split_ifs <;> simp [is_clear_running]

theorem kpi_acts_clear (ts f : Int) : (kpi_acts ts f).countP is_clear_running = 0 := by
  unfold kpi_acts; split_ifs <;> simp [is_clear_running]

theorem fps_acts_clear (T : Int) (now prev : Timeval) (n : Nat) :
    (fps_acts T now prev n).countP is_clear_running = 0 := by
  unfold fps_acts; split_ifs <;> simp [is_clear_running]

theorem budget_acts_clear (s : Setup) (n : Nat) :
    (budget_acts s n).countP is_clear_running = if budget_reached s n then 1 else 0 := by
  unfold budget_acts; split_ifs <;> simp [is_clear_running]

theorem iteration_acts_clear (s : Setup) (T : Int) (i v ts : Int) (now : Timeval)
    (st : PollState) :
    (iteration_acts s T i v ts now st).countP is_clear_running =
      if budget_reached s st.total_received_frames then 1 else 0 := by
  simp only [iteration_acts, List.countP_append, pair_acts_clear, kpi_acts_clear,
    fps_acts_clear, budget_acts_clear]
  simp [is_clear_running]

theorem budget_reached_iff (s : Setup) (c : Nat) (hN : s.frames_count < UINT_RANGE)
    (hc : s.frames_count ≠ 0 → c < s.frames_count) :
    budget_reached s c = true ↔ s.frames_count ≠ 0 ∧ s.frames_count = c + 1 := by
  have hU : UINT_RANGE = 4294967296 := rfl
  unfold budget_reached
  rw [decide_eq_true_iff]
  constructor
  · rintro ⟨h0, h1⟩
    have hlt := hc h0
    have hm : (c + 1) % UINT_RANGE = c + 1 := Nat.mod_eq_of_lt (by omega)
    rw [hm] at h1
    exact ⟨h0, by omega⟩
  · rintro ⟨h0, h1⟩
    have hm : (c + 1) % UINT_RANGE = c + 1 := Nat.mod_eq_of_lt (by omega)
    rw [hm]
    exact ⟨h0, by omega⟩

theorem loop_budget (s : Setup) (T : Int) (hN : s.frames_count < UINT_RANGE)
    (es : List Event) (hval : ∀ e ∈ es, passes_validation s e = true) :
    ∀ st : PollState, st.running ≠ 0 →
      (s.frames_count ≠ 0 → st.total_received_frames < s.frames_count) →
      ((s.frames_count ≠ 0 ∧ s.frames_count ≤ st.total_received_frames + dequeue_count es) →
        (polling_loop s T es st).running = 0 ∧
          (polling_loop s T es st).trace.countP is_clear_running =
            st.trace.countP is_clear_running + 1 ∧
          (dequeued_indices (polling_loop s T es st).trace).length =
            (dequeued_indices st.trace).length +
              (s.frames_count - st.total_received_frames)) ∧
      (¬(s.frames_count ≠ 0 ∧ s.frames_count ≤ st.total_received_frames + dequeue_count es) →
        (polling_loop s T es st).running = st.running ∧
          (polling_loop s T es st).trace.countP is_clear_running =
            st.trace.countP is_clear_running ∧
          (dequeued_indices (polling_loop s T es st).trace).length =
            (dequeued_indices st.trace).length + dequeue_count es) := by
  have hU : UINT_RANGE = 4294967296 := rfl
  induction es with
  | nil =>
    intro st _ hc
    constructor
    · rintro ⟨h0, h1⟩
      have := hc h0
      simp [dequeue_count, event_indices] at h1
      omega
    · intro _
      simp [polling_loop, dequeue_count, event_indices]
  | cons e es ih =>
    intro st hr hc
    have hes : ∀ e ∈ es, passes_validation s e = true := fun x hx =>
      hval x (List.mem_cons_of_mem _ hx)
    have he : passes_validation s e = true := hval e (List.mem_cons_self _ _)
    cases e with
    | timeout =>
      have := ih hes st hr hc
      simpa [polling_loop, hr, polling_iteration, dequeue_count, event_indices] using this
    | no_pollin =>
      have := ih hes st hr hc
      simpa [polling_loop, hr, polling_iteration, dequeue_count, event_indices] using this
    | dequeued i v ts now =>
      have hv : ¬(i > (s.buffer_count : Int) ∨ i < 0) := by
        simpa [passes_validation] using he
      have hd : dequeue_count (Event.dequeued i v ts now :: es) = dequeue_count es + 1 := by
        simp [dequeue_count, event_indices]
      have hloop : polling_loop s T (Event.dequeued i v ts now :: es) st =
          polling_loop s T es (polling_iteration s T (Event.dequeued i v ts now) st).1 := by
        simp only [polling_loop, if_neg hr, iteration_continues s T i v ts now st hv]
        simp
      have hrun := iteration_running s T i v ts now st hv
      have htot := iteration_total s T i v ts now st hv
      have htr := iteration_trace s T i v ts now st hv
      have hcl := iteration_acts_clear s T i v ts now st
      have hdq := (iteration_acts_transfer s T i v ts now st).2.1
      have hbi := budget_reached_iff s st.total_received_frames hN hc
      rw [hloop, hd]
      by_cases hb : budget_reached s st.total_received_frames = true
      · obtain ⟨h0, h1⟩ := hbi.mp hb
        rw [if_pos hb] at hrun hcl
        rw [loop_stopped s T es _ hrun, hrun, htr, List.countP_append, hcl,
          dequeued_indices_append, List.length_append, hdq]
        constructor
        · intro _
          refine ⟨rfl, rfl, ?_⟩
          simp only [List.length_singleton]
          omega
        · intro hn
          exact absurd ⟨h0, by omega⟩ hn
      · have hnb : ¬(s.frames_count ≠ 0 ∧ s.frames_count = st.total_received_frames + 1) :=
          fun hh => hb (hbi.mpr hh)
        rw [if_neg hb] at hrun hcl
        have hm : s.frames_count ≠ 0 →
            (st.total_received_frames + 1) % UINT_RANGE = st.total_received_frames + 1 := by
          intro h0
          have := hc h0
          exact Nat.mod_eq_of_lt (by omega)
        have hc1 : s.frames_count ≠ 0 →
            (polling_iteration s T (Event.dequeued i v ts now) st).1.total_received_frames <
              s.frames_count := by
          intro h0
          have := hc h0
          rw [htot, hm h0]
          by_contra hcc
          exact hnb ⟨h0, by omega⟩
        obtain ⟨ih1, ih2⟩ := ih hes (polling_iteration s T (Event.dequeued i v ts now) st).1
          (by rw [hrun]; exact hr) hc1
        simp only [hrun, htr, List.countP_append, hcl, dequeued_indices_append,
          List.length_append, hdq, htot, List.length_singleton, Nat.add_zero] at ih1 ih2
        constructor
        · rintro ⟨h0, h1⟩
          obtain ⟨a1, a2, a3⟩ := ih1 ⟨h0, by rw [hm h0]; omega⟩
          refine ⟨a1, a2, ?_⟩
          rw [a3, hm h0]
          have := hc h0
          omega
        · intro hn
          by_cases h0 : s.frames_count = 0
          · obtain ⟨a1, a2, a3⟩ := ih2 (fun hh => hh.1 h0)
            refine ⟨a1, a2, ?_⟩
            rw [a3]
            omega
          · obtain ⟨a1, a2, a3⟩ := ih2 (by
              rintro ⟨_, h1⟩
              rw [hm h0] at h1
              exact hn ⟨h0, by omega⟩)
            refine ⟨a1, a2, ?_⟩
            rw [a3]
            omega

/-- Claim C6: for every frame budget `N = frames_count` and every sequence of events whose
dequeued indices pass the test of line 85, started with `running` set: `polling_thread`
ends with `running` cleared exactly when `N != 0` and at least `N` buffers were
delivered; it executes `running = 0` once in that case and never otherwise; and it has
then processed exactly `N` buffers, so the clearing happens while the `N`-th buffer is
processed and not before.  With `N = 0` it processes every buffer and never clears
`running`.  For a single iteration: the iteration that processes the `k`-th buffer
(`total_received_frames` was `k - 1`) executes `running = 0` exactly when `N != 0` and
`k >= N`. -/
theorem frame_budget_clears_running_at_nth_buffer (s : Setup) (T : Int) (running ffr : Int)
    (t0 : Timeval) (es : List Event) (hN : s.frames_count < UINT_RANGE) (hr : running ≠ 0)
    (hval : ∀ e ∈ es, passes_validation s e = true) :
    ((polling_thread s T running ffr t0 es).running = 0 ↔
        (s.frames_count ≠ 0 ∧ s.frames_count ≤ dequeue_count es)) ∧
      (polling_thread s T running ffr t0 es).trace.countP is_clear_running =
        (if s.frames_count ≠ 0 ∧ s.frames_count ≤ dequeue_count es then 1 else 0) ∧
      (dequeued_indices (polling_thread s T running ffr t0 es).trace).length =
        (if s.frames_count ≠ 0 ∧ s.frames_count ≤ dequeue_count es then s.frames_count
          else dequeue_count es) ∧
      (∀ (st : PollState) (i v ts : Int) (now : Timeval),
        ¬(i > (s.buffer_count : Int) ∨ i < 0) → st.total_received_frames + 1 < UINT_RANGE →
        (polling_iteration s T (Event.dequeued i v ts now) st).1.trace.countP is_clear_running =
          st.trace.countP is_clear_running +
            (if s.frames_count ≠ 0 ∧ st.total_received_frames + 1 ≥ s.frames_count then 1
              else 0)) := by
  have h0 : (polling_init s running ffr t0).total_received_frames = 0 := rfl
  have hr0 : (polling_init s running ffr t0).running = running := rfl
  have ht0 : (polling_init s running ffr t0).trace = [] := rfl
  obtain ⟨l1, l2⟩ := loop_budget s T hN es hval (polling_init s running ffr t0)
    (by rw [hr0]; exact hr) (by intro hn; rw [h0]; omega)
  have hd0 : dequeued_indices [] = [] := rfl
  simp only [h0, hr0, ht0, hd0, Nat.zero_add, List.countP_nil, List.length_nil,
    Nat.sub_zero] at l1 l2
  unfold polling_thread
  refine ⟨?_, ?_, ?_, ?_⟩
  · by_cases hc : s.frames_count ≠ 0 ∧ s.frames_count ≤ dequeue_count es
    · exact ⟨fun _ => hc, fun _ => (l1 hc).1⟩
    · constructor
      · intro h
        have := (l2 hc).1
        rw [this] at h
        exact absurd h hr
      · intro h
        exact absurd h hc
  · by_cases hc : s.frames_count ≠ 0 ∧ s.frames_count ≤ dequeue_count es
    · rw [if_pos hc]
      exact (l1 hc).2.1
    · rw [if_neg hc]
      exact (l2 hc).2.1
  · by_cases hc : s.frames_count ≠ 0 ∧ s.frames_count ≤ dequeue_count es
    · rw [if_pos hc]
      exact (l1 hc).2.2
    · rw [if_neg hc]
      exact (l2 hc).2.2
  · intro st i v ts now hv hk
    rw [iteration_trace s T i v ts now st hv, List.countP_append, iteration_acts_clear]
    have hm : (st.total_received_frames + 1) % UINT_RANGE = st.total_received_frames + 1 :=
      Nat.mod_eq_of_lt hk
    unfold budget_reached
    rw [hm]
    by_cases hc : s.frames_count ≠ 0 ∧ st.total_received_frames + 1 ≥ s.frames_count
    · simp [hc]
    · rw [if_neg hc]
      simp only [decide_eq_true_eq, if_neg hc]

/-- Witness of `frame_budget_clears_running_at_nth_buffer`: a budget of two frames and
three delivered buffers; `running` is cleared and only two buffers are dequeued. -/
theorem frame_budget_clears_running_at_nth_buffer_witness :
    (polling_thread ⟨4, 0, 2⟩ 1 1 0 ⟨0, 0⟩
        [Event.dequeued 0 0 5 ⟨0, 100⟩, Event.dequeued 1 0 6 ⟨0, 200⟩,
          Event.dequeued 2 0 7 ⟨0, 300⟩]).running = 0 ∧
      (dequeued_indices (polling_thread ⟨4, 0, 2⟩ 1 1 0 ⟨0, 0⟩
        [Event.dequeued 0 0 5 ⟨0, 100⟩, Event.dequeued 1 0 6 ⟨0, 200⟩,
          Event.dequeued 2 0 7 ⟨0, 300⟩]).trace).length = 2 :=
  ⟨(frame_budget_clears_running_at_nth_buffer ⟨4, 0, 2⟩ 1 1 0 ⟨0, 0⟩
      [Event.dequeued 0 0 5 ⟨0, 100⟩, Event.dequeued 1 0 6 ⟨0, 200⟩,
        Event.dequeued 2 0 7 ⟨0, 300⟩] (by decide) (by decide) (by decide)).1.mpr (by decide),
    (frame_budget_clears_running_at_nth_buffer ⟨4, 0, 2⟩ 1 1 0 ⟨0, 0⟩
      [Event.dequeued 0 0 5 ⟨0, 100⟩, Event.dequeued 1 0 6 ⟨0, 200⟩,
        Event.dequeued 2 0 7 ⟨0, 300⟩] (by decide) (by decide)
      (by decide)).2.2.1.trans (by decide)⟩

/-- Claim C1: over every sequence of events whose dequeued indices all pass the test of
line 85, `polling_thread` requeues each dequeued buffer exactly once, with the index it
was dequeued with, before the next dequeue.  One iteration that dequeues `i` appends the
calls `dequeue i`, `queue_buffer i` and no other transfer.  Over a run the calls of
`dequeue_buffer` and `queue_buffer` alternate as `dequeue i, queue_buffer i`, so the
sequence of requeued indices equals the sequence of dequeued indices; and, started with
`running` set, the buffers requeued are exactly the buffers the driver delivered, in
order, all of them when there is no frame budget and the first `frames_count` of them
otherwise. -/
theorem polling_thread_requeues_each_dequeue (s : Setup) (T : Int) (running ffr : Int)
    (t0 : Timeval) (es : List Event) (h : ∀ e ∈ es, passes_validation s e = true) :
    requeued_indices (polling_thread s T running ffr t0 es).trace =
        dequeued_indices (polling_thread s T running ffr t0 es).trace ∧
      (polling_thread s T running ffr t0 es).trace.filter is_transfer =
        (dequeued_indices (polling_thread s T running ffr t0 es).trace).flatMap transfer_pair ∧
      dequeued_indices (polling_thread s T running ffr t0 es).trace <+: event_indices es ∧
      (running ≠ 0 → s.frames_count < UINT_RANGE →
        requeued_indices (polling_thread s T running ffr t0 es).trace =
          (event_indices es).take
            (if s.frames_count ≠ 0 ∧ s.frames_count ≤ dequeue_count es then s.frames_count
              else dequeue_count es)) ∧
      (∀ (st : PollState) (i v ts : Int) (now : Timeval),
        ¬(i > (s.buffer_count : Int) ∨ i < 0) →
        requeued_indices (polling_iteration s T (Event.dequeued i v ts now) st).1.trace =
            requeued_indices st.trace ++ [i] ∧
          (polling_iteration s T (Event.dequeued i v ts now) st).1.trace.filter is_transfer =
            st.trace.filter is_transfer ++ [Action.dequeue i, Action.queue_buffer i]) := by
  obtain ⟨l, hl, h1, h2, h3⟩ := loop_transfers s T es h (polling_init s running ffr t0)
  have e0 : (polling_init s running ffr t0).trace = [] := rfl
  have d0 : dequeued_indices [] = [] := rfl
  have r0 : requeued_indices [] = [] := rfl
  rw [e0, List.filter_nil, List.nil_append] at h1
  rw [e0, d0, List.nil_append] at h2
  rw [e0, r0, List.nil_append] at h3
  refine ⟨?_, ?_, ?_, ?_, ?_⟩
  · unfold polling_thread
    rw [h2, h3]
  · unfold polling_thread
    rw [h1, h2]
  · unfold polling_thread
    rw [h2]
    exact hl
  · intro hr hN
    have hc0 : (polling_init s running ffr t0).total_received_frames = 0 := rfl
    have hr0 : (polling_init s running ffr t0).running = running := rfl
    obtain ⟨b1, b2⟩ := loop_budget s T hN es h (polling_init s running ffr t0)
      (by rw [hr0]; exact hr) (by intro hn; rw [hc0]; omega)
    simp only [hc0, e0, d0, Nat.zero_add, List.length_nil, Nat.sub_zero] at b1 b2
    have hlen : l.length =
        if s.frames_count ≠ 0 ∧ s.frames_count ≤ dequeue_count es then s.frames_count
          else dequeue_count es := by
      rw [← h2]
      by_cases hc : s.frames_count ≠ 0 ∧ s.frames_count ≤ dequeue_count es
      · rw [if_pos hc]
        exact (b1 hc).2.2
      · rw [if_neg hc]
        exact (b2 hc).2.2
    unfold polling_thread
    rw [h3, ← hlen]
    exact List.prefix_iff_eq_take.mp hl
  · intro st i v ts now hv
    obtain ⟨a1, _, a3⟩ := iteration_acts_transfer s T i v ts now st
    rw [iteration_trace s T i v ts now st hv, requeued_indices_append, a3,
      List.filter_append, a1]
    exact ⟨rfl, rfl⟩

/-- Witness of `polling_thread_requeues_each_dequeue`: a progressive stream without frame
budget delivers buffers 0, 1, 0 with a poll timeout in between; the buffers requeued are
0, 1, 0. -/
theorem polling_thread_requeues_each_dequeue_witness :
    requeued_indices (polling_thread progressive_setup 1 1 0 ⟨0, 0⟩
        [Event.dequeued 0 0 5 ⟨0, 100⟩, Event.timeout, Event.dequeued 1 0 6 ⟨0, 200⟩,
          Event.dequeued 0 0 7 ⟨0, 300⟩]).trace = [0, 1, 0] :=
  ((polling_thread_requeues_each_dequeue progressive_setup 1 1 0 ⟨0, 0⟩
    [Event.dequeued 0 0 5 ⟨0, 100⟩, Event.timeout, Event.dequeued 1 0 6 ⟨0, 200⟩,
      Event.dequeued 0 0 7 ⟨0, 300⟩] (by decide)).2.2.2.1 (by decide) (by decide)).trans
    (by decide)

/-! ## The frame-rate figure -/

set_option maxRecDepth 100000 in
/-- Claim C7, the code at the failing input: thirty buffers arrive in a window of 1.5 s
(window length `TARGET_NUM_SECONDS = 1`).  The integer divisions of lines 122 and 123
leave 1 in `time_diff_secs`, so the one line printed reports 30 frames in 1 second, a rate
of 30, whereas thirty buffers over the exact elapsed time of 1.5 s are a rate of 20. -/
theorem fps_report_truncates_elapsed_time :
    fps_reports (polling_thread progressive_setup 1 1 0 ⟨100, 0⟩ burst_events).trace =
        [(30, 1)] ∧
      reported_fps 30 1 = 30 ∧
      exact_elapsed_seconds (timersub ⟨101, 500000⟩ ⟨100, 0⟩) = 3 / 2 ∧
      (30 : ℚ) / exact_elapsed_seconds (timersub ⟨101, 500000⟩ ⟨100, 0⟩) = 20 := by
  refine ⟨by decide, ?_, ?_, ?_⟩
  · norm_num [reported_fps]
  · norm_num [exact_elapsed_seconds, timersub]
  · norm_num [exact_elapsed_seconds, timersub]

/-- The case the specification names: a window of exactly 1.000 s with thirty buffers is
reported as a rate of 30, which is also the exact rate. -/
theorem fps_report_one_second_window :
    time_diff_secs ⟨101, 0⟩ ⟨100, 0⟩ = 1 ∧ reported_fps 30 1 = 30 ∧
      (30 : ℚ) / exact_elapsed_seconds (timersub ⟨101, 0⟩ ⟨100, 0⟩) = 30 := by
  refine ⟨by decide, ?_, ?_⟩
  · norm_num [reported_fps]
  · norm_num [exact_elapsed_seconds, timersub]

/-! ## The first-frame KPI -/

theorem pair_acts_kpi (s : Setup) (i v p : Int) :
    (pair_acts s i v p).filter is_first_frame_write = [] := by
  unfold pair_acts; split_ifs <;> simp [is_first_frame_write]

theorem budget_acts_kpi (s : Setup) (n : Nat) :
    (budget_acts s n).filter is_first_frame_write = [] := by
  unfold budget_acts; split_ifs <;> simp [is_first_frame_write]

theorem fps_acts_kpi (T : Int) (now prev : Timeval) (n : Nat) :
    (fps_acts T now prev n).filter is_first_frame_write = [] := by
  unfold fps_acts; split_ifs <;> simp [is_first_frame_write]

theorem iteration_acts_kpi (s : Setup) (T : Int) (i v ts : Int) (now : Timeval)
    (st : PollState) :
    (iteration_acts s T i v ts now st).filter is_first_frame_write =
      if st.first_frame_received = 0 then [Action.get_ts_first_frame ts] else [] := by
  simp only [iteration_acts, List.filter_append, pair_acts_kpi, budget_acts_kpi, fps_acts_kpi]
  unfold kpi_acts
  split_ifs <;> simp [is_first_frame_write]

/-- Once `first_frame_received` is non-zero, an iteration leaves it, the timestamp and
the list of timestamp stores as they are. -/
theorem iteration_kpi_frozen (s : Setup) (T : Int) (e : Event) (st : PollState)
    (h : st.first_frame_received ≠ 0) :
    (polling_iteration s T e st).1.first_frame_received = st.first_frame_received ∧
      (polling_iteration s T e st).1.first_frame_time = st.first_frame_time ∧
      (polling_iteration s T e st).1.trace.filter is_first_frame_write =
        st.trace.filter is_first_frame_write := by
  cases e with
  | timeout => simp [polling_iteration]
  | no_pollin => simp [polling_iteration]
  | dequeued i v ts now =>
    by_cases hv : i > (s.buffer_count : Int) ∨ i < 0
    · rw [iteration_abort s T i v ts now st hv]
      simp [List.filter_append, is_first_frame_write]
    · rw [iteration_ffr s T i v ts now st hv, iteration_fft s T i v ts now st hv,
        iteration_trace s T i v ts now st hv, List.filter_append, iteration_acts_kpi]
      simp [h]

theorem loop_kpi_frozen (s : Setup) (T : Int) (es : List Event) :
    ∀ st : PollState, st.first_frame_received ≠ 0 →
      (polling_loop s T es st).first_frame_received = st.first_frame_received ∧
        (polling_loop s T es st).first_frame_time = st.first_frame_time ∧
        (polling_loop s T es st).trace.filter is_first_frame_write =
          st.trace.filter is_first_frame_write := by
  induction es with
  | nil => intro st _; simp [polling_loop]
  | cons e es ih =>
    intro st h
    obtain ⟨a1, a2, a3⟩ := iteration_kpi_frozen s T e st h
    unfold polling_loop
    split_ifs with h1 h2
    · exact ⟨rfl, rfl, rfl⟩
    · exact ⟨a1, a2, a3⟩
    · obtain ⟨b1, b2, b3⟩ := ih (polling_iteration s T e st).1 (by rw [a1]; exact h)
      exact ⟨b1.trans a1, b2.trans a2, b3.trans a3⟩

theorem iteration_kpi_count (s : Setup) (T : Int) (e : Event) (st : PollState)
    (h : st.first_frame_received = 0) :
    ((polling_iteration s T e st).1.first_frame_received = 0 ∧
        (polling_iteration s T e st).1.trace.filter is_first_frame_write =
          st.trace.filter is_first_frame_write) ∨
      ((polling_iteration s T e st).1.first_frame_received = 1 ∧
        ((polling_iteration s T e st).1.trace.filter is_first_frame_write).length =
          (st.trace.filter is_first_frame_write).length + 1) := by
  cases e with
  | timeout => left; simp [polling_iteration, h]
  | no_pollin => left; simp [polling_iteration, h]
  | dequeued i v ts now =>
    by_cases hv : i > (s.buffer_count : Int) ∨ i < 0
    · left
      rw [iteration_abort s T i v ts now st hv]
      simp [List.filter_append, is_first_frame_write, h]
    · right
      rw [iteration_ffr s T i v ts now st hv, iteration_trace s T i v ts now st hv,
        List.filter_append, iteration_acts_kpi]
      simp [h]

theorem loop_kpi_count (s : Setup) (T : Int) (es : List Event) :
    ∀ st : PollState,
      ((polling_loop s T es st).trace.filter is_first_frame_write).length ≤
        (st.trace.filter is_first_frame_write).length +
          (if st.first_frame_received = 0 then 1 else 0) := by
  induction es with
  | nil => intro st; simp [polling_loop]
  | cons e es ih =>
    intro st
    by_cases h : st.first_frame_received = 0
    · rw [if_pos h]
      unfold polling_loop
      split_ifs with h1 h2
      · omega
      · rcases iteration_kpi_count s T e st h with ⟨_, b⟩ | ⟨_, b⟩
        · rw [b]; omega
        · rw [b]
      · rcases iteration_kpi_count s T e st h with ⟨a, b⟩ | ⟨a, b⟩
        · have := ih (polling_iteration s T e st).1
          rw [if_pos a, b] at this
          exact this
        · have := (loop_kpi_frozen s T es (polling_iteration s T e st).1
            (by rw [a]; decide)).2.2
          rw [this, b]
    · rw [if_neg h, (loop_kpi_frozen s T (e :: es) st h).2.2]
      omega

theorem no_indices_idle (pre : List Event) (h : event_indices pre = []) :
    ∀ e ∈ pre, e = Event.timeout ∨ e = Event.no_pollin := by
  induction pre with
  | nil => intro e he; cases he
  | cons x xs ih =>
    intro e he
    cases x with
    | timeout =>
      rcases List.mem_cons.mp he with rfl | hm
      · exact Or.inl rfl
      · exact ih (by simpa [event_indices] using h) e hm
    | no_pollin =>
      rcases List.mem_cons.mp he with rfl | hm
      · exact Or.inr rfl
      · exact ih (by simpa [event_indices] using h) e hm
    | dequeued i v ts now => simp [event_indices] at h

theorem loop_skip_idle (s : Setup) (T : Int) (pre rest : List Event) (st : PollState)
    (h : event_indices pre = []) :
    polling_loop s T (pre ++ rest) st = polling_loop s T rest st := by
  induction pre with
  | nil => rfl
  | cons x xs ih =>
    cases x with
    | timeout =>
      by_cases hr : st.running = 0
      · rw [loop_stopped s T _ st hr, loop_stopped s T _ st hr]
      · simpa [polling_loop, hr, polling_iteration] using
          ih (by simpa [event_indices] using h)
    | no_pollin =>
      by_cases hr : st.running = 0
      · rw [loop_stopped s T _ st hr, loop_stopped s T _ st hr]
      · simpa [polling_loop, hr, polling_iteration] using
          ih (by simpa [event_indices] using h)
    | dequeued i v ts now => simp [event_indices] at h

/-- Started with `first_frame_received == 0`: nothing is recorded before the first dequeued
buffer, and its iteration makes the one store. -/
theorem first_dequeue_records_kpi (s : Setup) (T : Int) (running : Int)
    (t0 : Timeval) (pre post : List Event) (i v ts : Int) (now : Timeval)
    (hr : running ≠ 0) (hpre : event_indices pre = [])
    (hv : ¬(i > (s.buffer_count : Int) ∨ i < 0)) :
    ((polling_thread s T running 0 t0 pre).first_frame_received = 0 ∧
        (polling_thread s T running 0 t0 pre).trace.filter is_first_frame_write = []) ∧
      ((polling_thread s T running 0 t0
            (pre ++ Event.dequeued i v ts now :: post)).first_frame_received = 1 ∧
        (polling_thread s T running 0 t0
            (pre ++ Event.dequeued i v ts now :: post)).first_frame_time = ts ∧
        (polling_thread s T running 0 t0
            (pre ++ Event.dequeued i v ts now :: post)).trace.filter is_first_frame_write =
          [Action.get_ts_first_frame ts]) ∧
      (s.interlaced = 0 →
        (polling_thread s T running 0 t0 (pre ++ [Event.dequeued i v ts now])).disp_bufs0 =
          some i) := by
  have hr0 : (polling_init s running 0 t0).running ≠ 0 := hr
  have hf0 : (polling_init s running 0 t0).first_frame_received = 0 := rfl
  have ht0 : (polling_init s running 0 t0).trace = [] := rfl
  have hstep : ∀ rest, polling_loop s T (Event.dequeued i v ts now :: rest)
      (polling_init s running 0 t0) =
      polling_loop s T rest
        (polling_iteration s T (Event.dequeued i v ts now) (polling_init s running 0 t0)).1 := by
    intro rest
    simp only [polling_loop, if_neg hr0, iteration_continues s T i v ts now _ hv]
    simp
  have hffr := iteration_ffr s T i v ts now (polling_init s running 0 t0) hv
  have hfft := iteration_fft s T i v ts now (polling_init s running 0 t0) hv
  have htr := iteration_trace s T i v ts now (polling_init s running 0 t0) hv
  rw [if_pos hf0] at hffr hfft
  refine ⟨?_, ?_, ?_⟩
  · have := loop_skip_idle s T pre [] (polling_init s running 0 t0) hpre
    rw [List.append_nil] at this
    unfold polling_thread
    rw [this]
    simp [polling_loop, polling_init]
  · unfold polling_thread
    rw [loop_skip_idle s T pre _ _ hpre, hstep]
    obtain ⟨b1, b2, b3⟩ := loop_kpi_frozen s T post
      (polling_iteration s T (Event.dequeued i v ts now) (polling_init s running 0 t0)).1
      (by rw [hffr]; decide)
    rw [b1, b2, b3, hffr, hfft, htr, List.filter_append, iteration_acts_kpi, if_pos hf0, ht0]
    exact ⟨rfl, rfl, rfl⟩
  · intro hi
    unfold polling_thread
    rw [loop_skip_idle s T pre _ _ hpre, hstep]
    simp only [polling_loop]
    rw [iteration_disp0 s T i v ts now _ hv]
    simp [hi]

/-- Claim C8 (as amended): `polling_thread` is started with `running` set.  If
`first_frame_received` is 0 at that moment, the first-frame KPI is recorded in the
iteration that processes the first dequeued buffer whose index passes the test of line
85, whether or not that iteration publishes a Display Frame, and in no earlier iteration:
before that buffer (only poll timeouts and wake-ups without `POLLIN`) nothing is
recorded; from that iteration on `first_frame_received` is 1, `first_frame_time` holds
the instant read in that iteration and that is the only store ever made.  If
`first_frame_received` is already non-zero at that moment (nothing resets the global,
so in every session after the first), no iteration records anything, over any sequence
of events.  In non-interlaced mode the iteration of the first dequeued buffer publishes
the first Display Frame (`disp_bufs[0]` points to the dequeued buffer) in both cases. -/
theorem first_frame_kpi_recorded_at_first_dequeue (s : Setup) (T : Int) (running ffr : Int)
    (t0 : Timeval) (pre post : List Event) (i v ts : Int) (now : Timeval)
    (hr : running ≠ 0) (hpre : event_indices pre = [])
    (hv : ¬(i > (s.buffer_count : Int) ∨ i < 0)) :
    (ffr = 0 →
        ((polling_thread s T running ffr t0 pre).first_frame_received = 0 ∧
          (polling_thread s T running ffr t0 pre).trace.filter is_first_frame_write = []) ∧
        ((polling_thread s T running ffr t0
              (pre ++ Event.dequeued i v ts now :: post)).first_frame_received = 1 ∧
          (polling_thread s T running ffr t0
              (pre ++ Event.dequeued i v ts now :: post)).first_frame_time = ts ∧
          (polling_thread s T running ffr t0
              (pre ++ Event.dequeued i v ts now :: post)).trace.filter is_first_frame_write =
            [Action.get_ts_first_frame ts])) ∧
      (ffr ≠ 0 → ∀ es : List Event,
        (polling_thread s T running ffr t0 es).trace.filter is_first_frame_write = [] ∧
          (polling_thread s T running ffr t0 es).first_frame_received = ffr ∧
          (polling_thread s T running ffr t0 es).first_frame_time =
            (polling_init s running ffr t0).first_frame_time) ∧
      (s.interlaced = 0 →
        (polling_thread s T running ffr t0 (pre ++ [Event.dequeued i v ts now])).disp_bufs0 =
          some i) := by
  refine ⟨?_, ?_, ?_⟩
  · intro h0
    subst h0
    obtain ⟨a, b, _⟩ := first_dequeue_records_kpi s T running t0 pre post i v ts now hr hpre hv
    exact ⟨a, b⟩
  · intro hn es
    obtain ⟨b1, b2, b3⟩ := loop_kpi_frozen s T es (polling_init s running ffr t0) hn
    unfold polling_thread
    rw [b1, b2, b3]
    exact ⟨rfl, rfl, rfl⟩
  · intro hi
    have hr0 : (polling_init s running ffr t0).running ≠ 0 := hr
    unfold polling_thread
    rw [loop_skip_idle s T pre _ _ hpre]
    simp only [polling_loop, if_neg hr0, iteration_continues s T i v ts now _ hv]
    simp only [Bool.false_eq_true, if_false]
    rw [iteration_disp0 s T i v ts now _ hv]
    simp [hi]

/-- Witness of `first_frame_kpi_recorded_at_first_dequeue`: an interlaced stream whose
first buffer, after a poll timeout, is a top field; the timestamp 5 of that iteration is
recorded, and the bottom that follows does not change it. -/
theorem first_frame_kpi_recorded_at_first_dequeue_witness :
    (polling_thread interlaced_setup 1 1 0 ⟨0, 0⟩
        ([Event.timeout] ++ Event.dequeued 0 1 5 ⟨0, 100⟩ ::
          [Event.dequeued 1 0 6 ⟨0, 200⟩])).first_frame_time = 5 ∧
      (polling_thread progressive_setup 1 1 1 ⟨0, 0⟩
        [Event.dequeued 0 0 5 ⟨0, 100⟩]).trace.filter is_first_frame_write = [] :=
  ⟨(((first_frame_kpi_recorded_at_first_dequeue interlaced_setup 1 1 0 ⟨0, 0⟩ [Event.timeout]
      [Event.dequeued 1 0 6 ⟨0, 200⟩] 0 1 5 ⟨0, 100⟩ (by decide) (by decide)
      (by decide)).1 rfl).2).2.1,
    ((first_frame_kpi_recorded_at_first_dequeue progressive_setup 1 1 1 ⟨0, 0⟩ []
      [] 0 0 5 ⟨0, 100⟩ (by decide) (by decide) (by decide)).2.1 (by decide)
      [Event.dequeued 0 0 5 ⟨0, 100⟩]).1⟩

/-- Counterexample to claim C8 as stated: in interlaced mode the first buffer is a top
field.  Its iteration publishes nothing (`disp_bufs` stays null, no store into it), yet it
sets `first_frame_received` and stores the first-frame timestamp. -/
theorem first_frame_kpi_recorded_without_publish :
    (polling_thread interlaced_setup 1 1 0 ⟨0, 0⟩
        [Event.dequeued 0 1 5 ⟨0, 100⟩]).disp_bufs0 = none ∧
      (polling_thread interlaced_setup 1 1 0 ⟨0, 0⟩
        [Event.dequeued 0 1 5 ⟨0, 100⟩]).disp_bufs1 = none ∧
      (polling_thread interlaced_setup 1 1 0 ⟨0, 0⟩
        [Event.dequeued 0 1 5 ⟨0, 100⟩]).trace.filter is_disp_write = [] ∧
      (polling_thread interlaced_setup 1 1 0 ⟨0, 0⟩
        [Event.dequeued 0 1 5 ⟨0, 100⟩]).first_frame_received = 1 ∧
      (polling_thread interlaced_setup 1 1 0 ⟨0, 0⟩
        [Event.dequeued 0 1 5 ⟨0, 100⟩]).first_frame_time = 5 ∧
      (polling_thread interlaced_setup 1 1 0 ⟨0, 0⟩
        [Event.dequeued 0 1 5 ⟨0, 100⟩]).trace.filter is_first_frame_write =
        [Action.get_ts_first_frame 5] := by
  decide

/-- Claim C9: over any run of `polling_thread` the first-frame timestamp is stored at
most once; once `first_frame_received` is 1, no later iteration stores into
`first_frame_time` or changes it; and no iteration takes `first_frame_received` from a
non-zero value back to 0. -/
theorem first_frame_time_written_at_most_once (s : Setup) (T : Int) (running ffr : Int)
    (t0 : Timeval) (es : List Event) :
    ((polling_thread s T running ffr t0 es).trace.filter is_first_frame_write).length ≤ 1 ∧
      (∀ (st : PollState) (later : List Event), st.first_frame_received = 1 →
        (polling_loop s T later st).first_frame_received = 1 ∧
          (polling_loop s T later st).first_frame_time = st.first_frame_time ∧
          (polling_loop s T later st).trace.filter is_first_frame_write =
            st.trace.filter is_first_frame_write) ∧
      (∀ (st : PollState) (e : Event), st.first_frame_received ≠ 0 →
        (polling_iteration s T e st).1.first_frame_received ≠ 0) := by
  refine ⟨?_, ?_, ?_⟩
  · have := loop_kpi_count s T es (polling_init s running ffr t0)
    have ht0 : (polling_init s running ffr t0).trace = [] := rfl
    rw [ht0] at this
    unfold polling_thread
    simp only [List.filter_nil, List.length_nil, Nat.zero_add] at this
    split_ifs at this <;> omega
  · intro st later h
    obtain ⟨a1, a2, a3⟩ := loop_kpi_frozen s T later st (by rw [h]; decide)
    exact ⟨a1.trans h, a2, a3⟩
  · intro st e h
    rw [(iteration_kpi_frozen s T e st h).1]
    exact h

/-- Witness of `first_frame_time_written_at_most_once`: three buffers are processed and
the timestamp of the first one, 5, is the only one stored. -/
theorem first_frame_time_written_at_most_once_witness :
    (polling_loop progressive_setup 1
        [Event.dequeued 1 0 6 ⟨0, 200⟩, Event.dequeued 2 0 7 ⟨0, 300⟩]
        (polling_thread progressive_setup 1 1 0 ⟨0, 0⟩
          [Event.dequeued 0 0 5 ⟨0, 100⟩])).first_frame_time = 5 :=
  (((first_frame_time_written_at_most_once progressive_setup 1 1 0 ⟨0, 0⟩ []).2.1
    (polling_thread progressive_setup 1 1 0 ⟨0, 0⟩ [Event.dequeued 0 0 5 ⟨0, 100⟩])
    [Event.dequeued 1 0 6 ⟨0, 200⟩, Event.dequeued 2 0 7 ⟨0, 300⟩] (by decide)).2.1).trans
    (by decide)

/-! ## Shutdown of `iciStartDisplay` -/

/-- Claim C11, the code at the failing input: every set-up step succeeds, `running` is 1
and the first dispatch of the main display loop returns -1 while `running` is still 1.
The loop exits on the error, line 358 prints `running = 1`, and `pthread_join` is the next
call: `iciStartDisplay` stores into `running` only at line 304 and reaches the join with
Run State still set. -/
theorem join_attempted_with_running_set :
    (iciStartDisplay 1 (good_env 1 [⟨-1, 1⟩])).calls =
      [StartCall.format_setup, StartCall.open_device, StartCall.init_stream,
        StartCall.init_gem, StartCall.allocate_buffers, StartCall.queue_buffers,
        StartCall.stream_on, StartCall.set_running 1, StartCall.pthread_create,
        StartCall.display_setup, StartCall.calloc, StartCall.calloc,
        StartCall.dispatch (-1), StartCall.exiting 1, StartCall.pthread_join,
        StartCall.free_times, StartCall.cleanup, StartCall.free_buffers,
        StartCall.destroy_gem, StartCall.destroy_surface, StartCall.close_device,
        StartCall.wl_shell_destroy, StartCall.wl_compositor_destroy,
        StartCall.wl_display_flush] := by
  decide

theorem order_dispatches (l : List Dispatch) (p : ThreadPhase × Bool) :
    (l.map fun d => StartCall.dispatch d.ret).foldl order_step p = p := by
  induction l generalizing p with
  | nil => rfl
  | cons d ds ih => simpa [order_step] using ih p

theorem order_start_open (env : StartEnv) :
    (start_open env).foldl order_step (ThreadPhase.not_spawned, false) =
      (ThreadPhase.not_spawned, false) := by
  unfold start_open; split_ifs <;> simp [order_step]

theorem order_start_alloc (env : StartEnv) :
    (start_alloc env).foldl order_step (ThreadPhase.not_spawned, false) =
      (ThreadPhase.not_spawned, false) := by
  unfold start_alloc
  simp only [List.foldl_append, order_start_open]
  split_ifs <;> simp [order_step]

theorem order_start_spawn (start : Int) (env : StartEnv) :
    (start_spawn start env).foldl order_step (ThreadPhase.not_spawned, false) =
      (ThreadPhase.spawned, false) := by
  unfold start_spawn
  simp only [List.foldl_append, order_start_alloc]
  split_ifs <;> simp [order_step]

theorem order_teardown (dmabuf : Bool) (p : ThreadPhase) (h : p ≠ ThreadPhase.spawned) :
    (teardown dmabuf).foldl order_step (p, false) = (p, false) := by
  unfold teardown
  cases dmabuf <;> simp [order_step, h]

theorem start_alloc_quiet (env : StartEnv) :
    StartCall.pthread_create ∉ start_alloc env ∧ StartCall.free_buffers ∉ start_alloc env ∧
      StartCall.close_device ∉ start_alloc env := by
  unfold start_alloc start_open
  split_ifs <;> simp

theorem start_open_quiet (env : StartEnv) : StartCall.pthread_create ∉ start_open env := by
  unfold start_open
  split_ifs <;> simp

theorem start_spawn_quiet (start : Int) (env : StartEnv) :
    StartCall.free_buffers ∉ start_spawn start env ∧
      StartCall.close_device ∉ start_spawn start env := by
  obtain ⟨_, h2, h3⟩ := start_alloc_quiet env
  unfold start_spawn
  split_ifs <;> simp [h2, h3]

theorem loop_calls_quiet (env : StartEnv) :
    StartCall.free_buffers ∉ loop_calls env ∧ StartCall.close_device ∉ loop_calls env := by
  have h : ∀ x ∈ loop_calls env, ∃ r, x = StartCall.dispatch r := by
    intro x hx
    unfold loop_calls at hx
    obtain ⟨d, _, hd⟩ := List.mem_map.mp hx
    exact ⟨d.ret, hd.symm⟩
  constructor
  · intro hm
    obtain ⟨r, hr⟩ := h _ hm
    cases hr
  · intro hm
    obtain ⟨r, hr⟩ := h _ hm
    cases hr

theorem order_loop_calls (env : StartEnv) (p : ThreadPhase × Bool) :
    (loop_calls env).foldl order_step p = p := by
  unfold loop_calls
  exact order_dispatches _ p

theorem order_teardown_fresh (dmabuf : Bool) :
    (teardown dmabuf).foldl order_step (ThreadPhase.not_spawned, false) =
      (ThreadPhase.not_spawned, false) :=
  order_teardown dmabuf _ (by decide)

theorem order_teardown_joined (dmabuf : Bool) :
    (teardown dmabuf).foldl order_step (ThreadPhase.joined, false) =
      (ThreadPhase.joined, false) :=
  order_teardown dmabuf _ (by decide)

theorem teardown_quiet (dmabuf : Bool) : StartCall.pthread_create ∉ teardown dmabuf := by
  unfold teardown
  cases dmabuf <;> simp

/-- The shapes the sequence of calls of `iciStartDisplay` can take, one per path through
the function. -/
theorem iciStartDisplay_paths (start : Int) (env : StartEnv) :
    (iciStartDisplay start env).calls = start_open env ++ [StartCall.failed_open] ∨
      (iciStartDisplay start env).calls = start_open env ++
        [StartCall.init_stream, StartCall.close_device, StartCall.stream_init_failed] ∨
      (iciStartDisplay start env).calls = start_alloc env ++ teardown env.dmabuf ∨
      (iciStartDisplay start env).calls =
        start_alloc env ++ [StartCall.stream_on] ++ teardown env.dmabuf ∨
      (iciStartDisplay start env).calls = start_spawn start env ∨
      (iciStartDisplay start env).calls = start_spawn start env ++
        [StartCall.display_setup, StartCall.calloc, StartCall.no_memory] ∨
      (iciStartDisplay start env).calls = start_spawn start env ++
        [StartCall.display_setup, StartCall.calloc, StartCall.calloc, StartCall.no_memory] ∨
      (iciStartDisplay start env).calls = start_spawn start env ++
        [StartCall.display_setup, StartCall.calloc, StartCall.calloc] ++ loop_calls env ++
        [StartCall.exiting (render_loop env.dispatches (render_init env.running_at_loop)).running,
          StartCall.pthread_join, StartCall.free_times, StartCall.cleanup] ++
        teardown env.dmabuf ∨
      (iciStartDisplay start env).calls = start_spawn start env ++
        [StartCall.display_setup, StartCall.calloc, StartCall.calloc] ++ loop_calls env := by
  unfold iciStartDisplay
  split_ifs <;> simp

/-- Claim C12: in every execution of `iciStartDisplay`, an observer of the call order
never sees `free_buffers` or `close_device` called while the acquisition thread is
spawned and not yet joined; whenever the thread has been created and the pool is
released, `pthread_join` has been called, and it comes before `free_buffers`: the calls
from the exit of the main display loop on are `pthread_join`, the two `free`, `cleanup`,
and only then the teardown that starts with `free_buffers`. -/
theorem join_precedes_release (start : Int) (env : StartEnv) :
    released_while_unjoined (iciStartDisplay start env).calls = false ∧
      (StartCall.pthread_create ∈ (iciStartDisplay start env).calls →
        StartCall.free_buffers ∈ (iciStartDisplay start env).calls →
        ∃ before, (iciStartDisplay start env).calls =
          before ++ [StartCall.pthread_join, StartCall.free_times, StartCall.cleanup] ++
            teardown env.dmabuf ∧
          StartCall.free_buffers ∉ before ∧ StartCall.close_device ∉ before) := by
  obtain ⟨a1, a2, a3⟩ := start_alloc_quiet env
  obtain ⟨s2, s3⟩ := start_spawn_quiet start env
  obtain ⟨l2, l3⟩ := loop_calls_quiet env
  have o1 := start_open_quiet env
  have t1 := teardown_quiet env.dmabuf
  unfold released_while_unjoined
  rcases iciStartDisplay_paths start env with h | h | h | h | h | h | h | h | h <;> rw [h]
  · refine ⟨?_, fun hc => ?_⟩
    · simp [List.foldl_append, order_start_open, order_step]
    · simp [o1] at hc
  · refine ⟨?_, fun hc => ?_⟩
    · simp [List.foldl_append, order_start_open, order_step]
    · simp [o1] at hc
  · refine ⟨?_, fun hc => ?_⟩
    · simp [List.foldl_append, order_start_alloc, order_teardown_fresh]
    · simp [a1, t1] at hc
  · refine ⟨?_, fun hc => ?_⟩
    · simp [List.foldl_append, order_start_alloc, order_teardown_fresh, order_step]
    · simp [a1, t1] at hc
  · refine ⟨?_, fun _ hf => absurd hf s2⟩
    simp [order_start_spawn]
  · refine ⟨?_, fun _ hf => ?_⟩
    · simp [List.foldl_append, order_start_spawn, order_step]
    · simp [s2] at hf
  · refine ⟨?_, fun _ hf => ?_⟩
    · simp [List.foldl_append, order_start_spawn, order_step]
    · simp [s2] at hf
  · refine ⟨?_, fun _ _ => ?_⟩
    · simp [List.foldl_append, order_start_spawn, order_loop_calls, order_teardown_joined,
        order_step]
    · exact ⟨start_spawn start env ++
        [StartCall.display_setup, StartCall.calloc, StartCall.calloc] ++ loop_calls env ++
        [StartCall.exiting (render_loop env.dispatches (render_init env.running_at_loop)).running],
        by simp, by simp [s2, l2], by simp [s3, l3]⟩
  · refine ⟨?_, fun _ hf => ?_⟩
    · simp [List.foldl_append, order_start_spawn, order_loop_calls, order_step]
    · simp [s2, l2] at hf

/-- Witness of `join_precedes_release`: a session that streams, makes one dispatch and
is then stopped. -/
theorem join_precedes_release_witness :
    StartCall.pthread_create ∈ (iciStartDisplay 1 (good_env 1 [⟨0, 0⟩])).calls ∧
      StartCall.free_buffers ∈ (iciStartDisplay 1 (good_env 1 [⟨0, 0⟩])).calls ∧
      ∃ before, (iciStartDisplay 1 (good_env 1 [⟨0, 0⟩])).calls =
        before ++ [StartCall.pthread_join, StartCall.free_times, StartCall.cleanup] ++
          teardown (good_env 1 [⟨0, 0⟩]).dmabuf ∧
        StartCall.free_buffers ∉ before ∧ StartCall.close_device ∉ before :=
  ⟨by decide, by decide,
    (join_precedes_release 1 (good_env 1 [⟨0, 0⟩])).2 (by decide) (by decide)⟩

/-- Claim C16 (as amended): when a set-up step fails (`open_device` returns -1, or
`init_stream` returns non-zero), `iciStartDisplay` prints its diagnostic, does not create
the acquisition thread and returns 0; and 0 is the value it returns on every path on
which it returns, a successful session included, so the return value tells nothing
about success. -/
theorem setup_failure_spawns_no_thread_and_returns_zero (start : Int) (env : StartEnv)
    (h : env.dev_fd = -1 ∨ env.init_stream ≠ 0) :
    StartCall.pthread_create ∉ (iciStartDisplay start env).calls ∧
      (iciStartDisplay start env).ret = some 0 ∧
      (StartCall.failed_open ∈ (iciStartDisplay start env).calls ∨
        StartCall.stream_init_failed ∈ (iciStartDisplay start env).calls) ∧
      (∀ (start2 : Int) (env2 : StartEnv) (v : Int),
        (iciStartDisplay start2 env2).ret = some v → v = 0) := by
  have o1 := start_open_quiet env
  refine ⟨?_, ?_, ?_, ?_⟩
  · by_cases h1 : env.dev_fd = -1
    · simp [iciStartDisplay, h1, o1]
    · have h2 : env.init_stream ≠ 0 := h.resolve_left h1
      simp [iciStartDisplay, h1, h2, o1]
  · by_cases h1 : env.dev_fd = -1
    · simp [iciStartDisplay, h1]
    · have h2 : env.init_stream ≠ 0 := h.resolve_left h1
      simp [iciStartDisplay, h1, h2]
  · by_cases h1 : env.dev_fd = -1
    · left; simp [iciStartDisplay, h1]
    · have h2 : env.init_stream ≠ 0 := h.resolve_left h1
      right; simp [iciStartDisplay, h1, h2]
  · intro start2 env2 v hv
    unfold iciStartDisplay at hv
    split_ifs at hv <;> simp at hv <;> exact hv.symm

/-- Witness of `setup_failure_spawns_no_thread_and_returns_zero`: `open_device` fails. -/
theorem setup_failure_spawns_no_thread_and_returns_zero_witness :
    ({ good_env 1 [] with dev_fd := -1 } : StartEnv).dev_fd = -1 ∧
      (iciStartDisplay 1 { good_env 1 [] with dev_fd := -1 }).ret = some 0 :=
  ⟨rfl, (setup_failure_spawns_no_thread_and_returns_zero 1
    { good_env 1 [] with dev_fd := -1 } (Or.inl rfl)).2.1⟩

/-- Counterexample to claim C16 as stated: the execution in which `open_device` fails and
the execution that is set up, streams, dispatches once and is then stopped return the
same value, 0. -/
theorem setup_failure_returns_same_value_as_success :
    StartCall.pthread_create ∉ (iciStartDisplay 1 { good_env 1 [] with dev_fd := -1 }).calls ∧
      (iciStartDisplay 1 { good_env 1 [] with dev_fd := -1 }).ret = some 0 ∧
      StartCall.pthread_create ∈ (iciStartDisplay 1 (good_env 1 [⟨0, 0⟩])).calls ∧
      StartCall.dispatch 0 ∈ (iciStartDisplay 1 (good_env 1 [⟨0, 0⟩])).calls ∧
      (iciStartDisplay 1 (good_env 1 [⟨0, 0⟩])).ret = some 0 ∧
      (iciStartDisplay 1 { good_env 1 [] with dev_fd := -1 }).ret =
        (iciStartDisplay 1 (good_env 1 [⟨0, 0⟩])).ret := by
  decide

/-! ## Run State and `CameraDevice::stop` -/

theorem iteration_keeps_running_clear (s : Setup) (T : Int) (e : Event) (st : PollState)
    (h : st.running = 0) : (polling_iteration s T e st).1.running = 0 := by
  cases e with
  | timeout => simpa [polling_iteration] using h
  | no_pollin => simpa [polling_iteration] using h
  | dequeued i v ts now =>
    by_cases hv : i > (s.buffer_count : Int) ∨ i < 0
    · rw [iteration_abort s T i v ts now st hv]
      exact h
    · rw [iteration_running s T i v ts now st hv]
      split_ifs
      · rfl
      · exact h

theorem join_threads_clear (threads : List RvcThread) (r : Int) (hr : r = 0)
    (h : ∀ th ∈ threads, th.joinable = true → th.late_store = none ∨ th.late_store = some 0) :
    join_threads r threads = 0 := by
  unfold join_threads
  induction threads generalizing r with
  | nil => simpa using hr
  | cons th ths ih =>
    have hth := h th (List.mem_cons_self _ _)
    have hrest : ∀ x ∈ ths, x.joinable = true → x.late_store = none ∨ x.late_store = some 0 :=
      fun x hx => h x (List.mem_cons_of_mem _ hx)
    rw [List.foldl_cons]
    apply ih _ _ hrest
    by_cases hj : th.joinable = true
    · rw [if_pos hj]
      rcases hth hj with hn | hz
      · rw [hn]; exact hr
      · rw [hz]; rfl
    · rw [if_neg hj]; exact hr

/-- Claim C13 (as amended): once `running` is 0, no iteration of `polling_thread` and no
run of its loop sets it back to non-zero, and `CameraDevice::stop` leaves it 0 (within
the session, where the threads it joins are past line 304 and store nothing non-zero);
a call `iciStopDisplay(stop)` assigns `running = stop`, so it leaves `running` at 0
exactly when `stop` is 0, which is the argument of the only call in the program
(`CameraDevice::stop`). -/
theorem running_stays_clear (s : Setup) (T : Int) (e : Event) (es : List Event)
    (st : PollState) (d : CameraDevice) (h : st.running = 0) (hd : d.running = 0)
    (hw : ∀ th ∈ d.m_pThreadGrpRVC, th.joinable = true →
      th.late_store = none ∨ th.late_store = some 0) :
    (polling_iteration s T e st).1.running = 0 ∧
      (polling_loop s T es st).running = 0 ∧
      iciStopDisplay 0 st.running = 0 ∧
      (∀ stop : Int, iciStopDisplay stop st.running = 0 ↔ stop = 0) ∧
      d.stop.running = 0 := by
  refine ⟨iteration_keeps_running_clear s T e st h, ?_, rfl, fun stop => Iff.rfl, ?_⟩
  · rw [loop_stopped s T es st h]
    exact h
  · unfold CameraDevice.stop
    split_ifs
    · exact join_threads_clear _ _ rfl hw
    · rfl
    · exact hd

/-- Witness of `running_stays_clear`: the state in which a frame budget of one has just
cleared `running`, and a device whose display thread is streaming. -/
theorem running_stays_clear_witness :
    (polling_iteration ⟨4, 0, 1⟩ 1 (Event.dequeued 1 0 6 ⟨0, 200⟩)
        (polling_thread ⟨4, 0, 1⟩ 1 1 0 ⟨0, 0⟩ [Event.dequeued 0 0 5 ⟨0, 100⟩])).1.running = 0 ∧
      (CameraDevice.stop ⟨1, 0, [streaming_thread], some 0, 0⟩).running = 0 :=
  ⟨(running_stays_clear ⟨4, 0, 1⟩ 1 (Event.dequeued 1 0 6 ⟨0, 200⟩) []
      (polling_thread ⟨4, 0, 1⟩ 1 1 0 ⟨0, 0⟩ [Event.dequeued 0 0 5 ⟨0, 100⟩])
      ⟨1, 0, [streaming_thread], some 0, 0⟩ (by decide) (by decide) (by decide)).1,
    (running_stays_clear ⟨4, 0, 1⟩ 1 (Event.dequeued 1 0 6 ⟨0, 200⟩) []
      (polling_thread ⟨4, 0, 1⟩ 1 1 0 ⟨0, 0⟩ [Event.dequeued 0 0 5 ⟨0, 100⟩])
      ⟨1, 0, [streaming_thread], some 0, 0⟩ (by decide) (by decide) (by decide)).2.2.2.2⟩

/-- Counterexample to claim C13 as stated: with `running` at 0, the call
`iciStopDisplay(1)` sets it to 1. -/
theorem stop_display_can_set_running : iciStopDisplay 1 0 = 1 ∧ iciStopDisplay 1 0 ≠ 0 := by
  decide

/-- Claim C14 (as amended): when the ICI-enabled flag `m_ICIEnabled` is non-zero,
`CameraDevice::stop()` stores `running = 0` before it joins the threads of the group; on
return `running` holds what the joined threads stored after that store, and it is 0
provided no joined thread stored a non-zero value (a display thread that had not yet
executed `running = start`, line 304, does store 1).  When the flag is 0, `stop()` takes
its `else` branch and leaves `running`, the thread group and `m_pThreadRVC` as they
were. -/
theorem stop_clears_running_when_ici_enabled (d : CameraDevice) :
    (d.m_ICIEnabled ≠ 0 → d.stop.running = join_threads 0 d.m_pThreadGrpRVC) ∧
      (d.m_ICIEnabled ≠ 0 →
        (∀ th ∈ d.m_pThreadGrpRVC, th.joinable = true →
          th.late_store = none ∨ th.late_store = some 0) →
        d.stop.running = 0) ∧
      (d.m_ICIEnabled = 0 → d.stop = d) := by
  have hrun : d.m_ICIEnabled ≠ 0 → d.stop.running = join_threads 0 d.m_pThreadGrpRVC := by
    intro h
    unfold CameraDevice.stop
    rw [if_pos h]
    by_cases hg : d.m_pThreadGrpRVC ≠ []
    · rw [if_pos hg]; rfl
    · rw [if_neg hg, not_not.mp hg]; rfl
  refine ⟨hrun, ?_, ?_⟩
  · intro h hw
    rw [hrun h]
    exact join_threads_clear _ _ rfl hw
  · intro h
    unfold CameraDevice.stop
    rw [if_neg (by rw [h]; decide)]

/-- Witness of `stop_clears_running_when_ici_enabled`: a device that is enabled and whose
display thread is streaming. -/
theorem stop_clears_running_when_ici_enabled_witness :
    (CameraDevice.play ⟨1, 1, [], none, 0⟩ 1 streaming_thread).m_ICIEnabled ≠ 0 ∧
      (CameraDevice.play ⟨1, 1, [], none, 0⟩ 1 streaming_thread).stop.running = 0 :=
  ⟨by decide,
    (stop_clears_running_when_ici_enabled
      (CameraDevice.play ⟨1, 1, [], none, 0⟩ 1 streaming_thread)).2.1 (by decide)
      (by decide)⟩

/-- Counterexample to claim C14 as stated: `ConfigureICI` reported the device as not
ready (`m_ICIEnabled == 0`) and `running` holds its initial value 1; after `stop()`
`running` is still 1, with or without a display thread.  And on an enabled device whose
display thread `stop()` overtakes before line 304, `running` is 1 again when the join
returns. -/
theorem stop_leaves_running_when_ici_disabled :
    (CameraDevice.stop ⟨0, 1, [], none, 0⟩).running = 1 ∧
      (CameraDevice.stop (CameraDevice.play ⟨0, 1, [], none, 0⟩ 0 streaming_thread)).running =
        1 ∧
      (CameraDevice.stop (CameraDevice.play ⟨1, 1, [], none, 0⟩ 1 starting_thread)).running =
        1 := by
  decide

/-- Counterexample to claim C17 as stated: in interlaced mode the first buffer, index 0,
is a top field.  After its iteration it is the pending top (`prev_top_idx = 0`, nothing
published) and it has already been handed back to the driver by `queue_buffer`. -/
theorem pending_top_is_requeued_at_once :
    (polling_thread interlaced_setup 1 1 0 ⟨0, 0⟩
        [Event.dequeued 0 1 5 ⟨0, 100⟩]).prev_top_idx = 0 ∧
      (polling_thread interlaced_setup 1 1 0 ⟨0, 0⟩
        [Event.dequeued 0 1 5 ⟨0, 100⟩]).disp_bufs0 = none ∧
      requeued_indices (polling_thread interlaced_setup 1 1 0 ⟨0, 0⟩
        [Event.dequeued 0 1 5 ⟨0, 100⟩]).trace = [0] := by
  decide

/-- Claim C17 (as amended): in interlaced mode, an iteration that dequeues a top-field
buffer `t`, with an index that passes the test of line 85, remembers it as the pending
top and hands it back to the driver through `queue_buffer` in that same iteration, while
it is still pending; no requeue is deferred, since every later iteration whose index
passes the test requeues exactly the buffer it dequeued itself. -/
theorem pending_top_requeued_in_same_iteration (s : Setup) (T : Int) (st : PollState)
    (t v ts : Int) (now : Timeval) (later : Event) (hi : s.interlaced ≠ 0) (hv : v ≠ 0)
    (ht : ¬(t > (s.buffer_count : Int) ∨ t < 0)) (hl : passes_validation s later = true) :
    (polling_iteration s T (Event.dequeued t v ts now) st).1.prev_top_idx = t ∧
      requeued_indices (polling_iteration s T (Event.dequeued t v ts now) st).1.trace =
        requeued_indices st.trace ++ [t] ∧
      requeued_indices (polling_iteration s T later
          (polling_iteration s T (Event.dequeued t v ts now) st).1).1.trace =
        requeued_indices st.trace ++ [t] ++ event_indices [later] := by
  have h1 : requeued_indices (polling_iteration s T (Event.dequeued t v ts now) st).1.trace =
      requeued_indices st.trace ++ [t] := by
    rw [iteration_trace s T t v ts now st ht, requeued_indices_append,
      (iteration_acts_transfer s T t v ts now st).2.2]
  refine ⟨?_, h1, ?_⟩
  · rw [iteration_prev_top s T t v ts now st ht]
    simp [hi, hv]
  · cases later with
    | timeout => simpa [polling_iteration, event_indices] using h1
    | no_pollin => simpa [polling_iteration, event_indices] using h1
    | dequeued i w ts2 now2 =>
      have hv2 : ¬(i > (s.buffer_count : Int) ∨ i < 0) := by
        simpa [passes_validation] using hl
      rw [iteration_trace s T i w ts2 now2 _ hv2, requeued_indices_append,
        (iteration_acts_transfer s T i w ts2 now2 _).2.2, h1]
      simp [event_indices]

/-- Witness of `pending_top_requeued_in_same_iteration`: top 0 arrives first, bottom 1
after it. -/
theorem pending_top_requeued_in_same_iteration_witness :
    requeued_indices (polling_iteration interlaced_setup 1 (Event.dequeued 0 1 5 ⟨0, 100⟩)
        (polling_init interlaced_setup 1 0 ⟨0, 0⟩)).1.trace =
      requeued_indices (polling_init interlaced_setup 1 0 ⟨0, 0⟩).trace ++ [0] :=
  (pending_top_requeued_in_same_iteration interlaced_setup 1
    (polling_init interlaced_setup 1 0 ⟨0, 0⟩) 0 1 5 ⟨0, 100⟩
    (Event.dequeued 1 0 6 ⟨0, 200⟩) (by decide) (by decide) (by decide) (by decide)).2.1

theorem iteration_pending_requeued (s : Setup) (T : Int) (e : Event) (st : PollState)
    (h : pending_requeued_inv st) : pending_requeued_inv (polling_iteration s T e st).1 := by
  cases e with
  | timeout => simpa [polling_iteration] using h
  | no_pollin => simpa [polling_iteration] using h
  | dequeued i v ts now =>
    unfold pending_requeued_inv at h ⊢
    by_cases hv : i > (s.buffer_count : Int) ∨ i < 0
    · rw [iteration_abort s T i v ts now st hv]
      intro hp
      exact List.mem_append_left _ (List.mem_append_left _ (h hp))
    · rw [iteration_prev_top s T i v ts now st hv, iteration_trace s T i v ts now st hv]
      have hq : Action.queue_buffer i ∈ iteration_acts s T i v ts now st := by
        simp [iteration_acts]
      by_cases hi : s.interlaced ≠ 0
      · by_cases hv0 : v ≠ 0
        · rw [if_pos hi, if_pos hv0]
          intro _
          exact List.mem_append_right _ hq
        · by_cases hp : st.prev_top_idx < 0
          · rw [if_pos hi, if_neg hv0, if_pos hp]
            intro hc
            omega
          · rw [if_pos hi, if_neg hv0, if_neg hp]
            intro hc
            omega
      · rw [if_neg hi]
        intro hp
        exact List.mem_append_left _ (h hp)

theorem loop_pending_requeued (s : Setup) (T : Int) (es : List Event) :
    ∀ st : PollState, pending_requeued_inv st → pending_requeued_inv (polling_loop s T es st) := by
  induction es with
  | nil => intro st h; simpa [polling_loop] using h
  | cons e es ih =>
    intro st h
    unfold polling_loop
    split_ifs with h1 h2
    · exact h
    · exact iteration_pending_requeued s T e st h
    · exact ih _ (iteration_pending_requeued s T e st h)

/-- Claim C18: in interlaced mode, after any sequence of events whose indices pass the
test of line 85, when a top buffer `t2` (index passing the test) is dequeued while a top
`t1` is pending, then after that iteration the pending top is `t2`, `disp_bufs[0]` and
`disp_bufs[1]` are unchanged, and the superseded buffer `t1` is not held by the
application: `queue_buffer` had already been called on it, and the buffers requeued so
far are exactly the buffers dequeued so far. -/
theorem superseded_top_has_been_requeued (s : Setup) (T : Int) (running ffr : Int)
    (t0 : Timeval) (es : List Event) (t1 t2 v ts : Int) (now : Timeval)
    (hi : s.interlaced ≠ 0) (hval : ∀ e ∈ es, passes_validation s e = true)
    (hp : (polling_thread s T running ffr t0 es).prev_top_idx = t1) (h1 : 0 ≤ t1)
    (hv : v ≠ 0) (h2 : ¬(t2 > (s.buffer_count : Int) ∨ t2 < 0)) :
    (polling_iteration s T (Event.dequeued t2 v ts now)
        (polling_thread s T running ffr t0 es)).1.prev_top_idx = t2 ∧
      (polling_iteration s T (Event.dequeued t2 v ts now)
        (polling_thread s T running ffr t0 es)).1.disp_bufs0 =
        (polling_thread s T running ffr t0 es).disp_bufs0 ∧
      (polling_iteration s T (Event.dequeued t2 v ts now)
        (polling_thread s T running ffr t0 es)).1.disp_bufs1 =
        (polling_thread s T running ffr t0 es).disp_bufs1 ∧
      Action.queue_buffer t1 ∈ (polling_thread s T running ffr t0 es).trace ∧
      requeued_indices (polling_iteration s T (Event.dequeued t2 v ts now)
        (polling_thread s T running ffr t0 es)).1.trace =
        dequeued_indices (polling_iteration s T (Event.dequeued t2 v ts now)
          (polling_thread s T running ffr t0 es)).1.trace := by
  have hinv : pending_requeued_inv (polling_thread s T running ffr t0 es) :=
    loop_pending_requeued s T es _ (by
      intro hc
      have e0 : (polling_init s running ffr t0).prev_top_idx = -1 := rfl
      rw [e0] at hc
      omega)
  obtain ⟨l, _, _, d1, d2⟩ := loop_transfers s T es hval (polling_init s running ffr t0)
  have hbal : requeued_indices (polling_thread s T running ffr t0 es).trace =
      dequeued_indices (polling_thread s T running ffr t0 es).trace := by
    have e0 : (polling_init s running ffr t0).trace = [] := rfl
    unfold polling_thread
    rw [d1, d2, e0]
    rfl
  refine ⟨?_, ?_, ?_, ?_, ?_⟩
  · rw [iteration_prev_top s T t2 v ts now _ h2]
    simp [hi, hv]
  · rw [iteration_disp0 s T t2 v ts now _ h2]
    simp [hi, hv]
  · rw [iteration_disp1 s T t2 v ts now _ h2]
    simp [hi, hv]
  · have := hinv (by rw [hp]; exact h1)
    rw [hp] at this
    exact this
  · rw [iteration_trace s T t2 v ts now _ h2, requeued_indices_append,
      dequeued_indices_append, (iteration_acts_transfer s T t2 v ts now _).2.2,
      (iteration_acts_transfer s T t2 v ts now _).2.1, hbal]

/-- Witness of `superseded_top_has_been_requeued`: top 0 is pending when top 2 arrives. -/
theorem superseded_top_has_been_requeued_witness :
    (polling_iteration interlaced_setup 1 (Event.dequeued 2 1 6 ⟨0, 200⟩)
        (polling_thread interlaced_setup 1 1 0 ⟨0, 0⟩
          [Event.dequeued 0 1 5 ⟨0, 100⟩])).1.prev_top_idx = 2 ∧
      Action.queue_buffer 0 ∈ (polling_thread interlaced_setup 1 1 0 ⟨0, 0⟩
        [Event.dequeued 0 1 5 ⟨0, 100⟩]).trace :=
  ⟨(superseded_top_has_been_requeued interlaced_setup 1 1 0 ⟨0, 0⟩
      [Event.dequeued 0 1 5 ⟨0, 100⟩] 0 2 1 6 ⟨0, 200⟩ (by decide) (by decide) (by decide)
      (by decide) (by decide) (by decide)).1,
    (superseded_top_has_been_requeued interlaced_setup 1 1 0 ⟨0, 0⟩
      [Event.dequeued 0 1 5 ⟨0, 100⟩] 0 2 1 6 ⟨0, 200⟩ (by decide) (by decide) (by decide)
      (by decide) (by decide) (by decide)).2.2.2.1⟩

/-- Claim C19: in non-interlaced mode, an iteration that dequeues a buffer with an index
`i` that passes the test of line 85 sets `disp_bufs[0]` to `&buffers[i]`, makes that one
store into the Display Frame slot and leaves `disp_bufs[1]` unchanged, whatever field
tag `is_topbuf` the driver reported. -/
theorem progressive_buffer_is_display_frame (s : Setup) (T : Int) (st : PollState)
    (i v ts : Int) (now : Timeval) (hi : s.interlaced = 0)
    (hv : ¬(i > (s.buffer_count : Int) ∨ i < 0)) :
    (polling_iteration s T (Event.dequeued i v ts now) st).1.disp_bufs0 = some i ∧
      (polling_iteration s T (Event.dequeued i v ts now) st).1.disp_bufs1 = st.disp_bufs1 ∧
      (polling_iteration s T (Event.dequeued i v ts now) st).1.trace.filter is_disp_write =
        st.trace.filter is_disp_write ++ [Action.set_disp0 i] := by
  rw [iteration_disp0 s T i v ts now st hv, iteration_disp1 s T i v ts now st hv,
    iteration_trace s T i v ts now st hv]
  refine ⟨by simp [hi], by simp [hi], ?_⟩
  simp only [iteration_acts, List.filter_append, kpi_acts_no_write, budget_acts_no_write,
    fps_acts_no_write]
  simp [pair_acts, hi, is_disp_write]

/-- Witness of `progressive_buffer_is_display_frame`: buffer 2 arrives tagged top in a
progressive stream. -/
theorem progressive_buffer_is_display_frame_witness :
    (polling_iteration progressive_setup 1 (Event.dequeued 2 1 5 ⟨0, 100⟩)
        (polling_init progressive_setup 1 0 ⟨0, 0⟩)).1.disp_bufs0 = some 2 ∧
      (polling_iteration progressive_setup 1 (Event.dequeued 2 1 5 ⟨0, 100⟩)
        (polling_init progressive_setup 1 0 ⟨0, 0⟩)).1.disp_bufs1 = none :=
  ⟨(progressive_buffer_is_display_frame progressive_setup 1
      (polling_init progressive_setup 1 0 ⟨0, 0⟩) 2 1 5 ⟨0, 100⟩ (by decide) (by decide)).1,
    (progressive_buffer_is_display_frame progressive_setup 1
      (polling_init progressive_setup 1 0 ⟨0, 0⟩) 2 1 5 ⟨0, 100⟩ (by decide) (by decide)).2.1⟩

/-! ## GPIO numbers -/

/-- Claim C20, the code at the failing input: the option `gpio-number` is -2.
`OutputDevice::init` creates no control, but `CameraDevice::init` compares the number with
`NOT_SET` (-1) only and creates a `GPIOControl`; the constructor marks it invalid and
leaves `m_GPIONumber` unassigned, and `output`, which never reads `m_Valid`, opens the
value file (for whatever number the member holds) and, when the open succeeds, writes
the level to it.  For -1 no control is created. -/
theorem negative_gpio_number_creates_control (sustain : Nat) (unset : Int) (high : Bool) :
    OutputDevice_init_gpio (-2) sustain unset none = none ∧
      CameraDevice_init_gpio (-2) sustain unset none =
        some (GPIOControl.construct (-2) sustain unset) ∧
      (GPIOControl.construct (-2) sustain unset).m_Valid = false ∧
      (GPIOControl.construct (-2) sustain unset).m_GPIONumber = unset ∧
      (GPIOControl.construct (-2) sustain unset).output high ⟨3, 0, 0, 0⟩ =
        ([FileOp.open (GPIOControl.construct (-2) sustain unset).valuePath,
          FileOp.write (GPIOControl.construct (-2) sustain unset).valuePath (gpio_level high),
          FileOp.close (GPIOControl.construct (-2) sustain unset).valuePath], true) ∧
      (∀ r : OpenResults,
        FileOp.open (GPIOControl.construct (-2) sustain unset).valuePath ∈
          ((GPIOControl.construct (-2) sustain unset).output high r).1) ∧
      (∀ r1 r2 : OpenResults,
        FileOp.open (GPIOControl.construct (-2) sustain unset).valuePath ∈
          (GPIOControl.construct (-2) sustain unset).outputPattern r1 r2) ∧
      CameraDevice_init_gpio (-1) sustain unset none = none := by
  have hopen : ∀ (b : Bool) (r : OpenResults),
      FileOp.open (GPIOControl.construct (-2) sustain unset).valuePath ∈
        ((GPIOControl.construct (-2) sustain unset).output b r).1 := by
    intro b r
    unfold GPIOControl.output
    split_ifs <;> simp
  refine ⟨by simp [OutputDevice_init_gpio], ?_, ?_, ?_, ?_, hopen high, ?_, ?_⟩
  · simp [CameraDevice_init_gpio, NOT_SET, GPIOControl_create]
  · simp [GPIOControl.construct]
  · simp [GPIOControl.construct]
  · simp [GPIOControl.output]
  · intro r1 r2
    unfold GPIOControl.outputPattern
    exact List.mem_append_left _ (hopen true r1)
  · simp [CameraDevice_init_gpio, NOT_SET]

/-! ## `format_setup`: the port of the default branch -/

/-- Port that `format_setup` leaves in `s->port` in the `default` branch: 4 when the
global `pixelformat` is 0, and otherwise the port the caller passed in. -/
theorem format_setup_default_port (fmts : PixelFormats) (dflt stream_id pixelformat : Int)
    (f : StreamFormat) (s : FormatSetup) (h : s.stream_input = StreamInput.CVBS_INPUT) :
    (format_setup fmts dflt stream_id pixelformat f s).1.port =
      if pixelformat = 0 then 4 else s.port := by
  simp only [format_setup, format_switch, h]
  split_ifs <;> rfl

/-- Claim C21, the code at the failing input: a CVBS setup (the `default` branch) arrives
with `port = 0` while the global `pixelformat` already holds `ICI_FORMAT_UYVY`.  No warning
is raised, and because `s->port = 4` is the second half of the comma expression guarded by
`if (!stream_fmt.ffmt.pixelformat)`, the port is still 0 after `format_setup`.  With
`pixelformat == 0` the same setup gets port 4. -/
theorem format_setup_leaves_port_when_pixelformat_set :
    (cvbs_setup 0).stream_input = StreamInput.CVBS_INPUT ∧
      (format_setup sample_formats 27 27 sample_formats.ICI_FORMAT_UYVY zero_format
        (cvbs_setup 0)).1.port = 0 ∧
      (format_setup sample_formats 27 27 sample_formats.ICI_FORMAT_UYVY zero_format
        (cvbs_setup 0)).2.2 = false ∧
      (format_setup sample_formats 27 27 0 zero_format (cvbs_setup 0)).1.port = 4 := by
  decide

/-! ## Field tags of the published pair -/

theorem iteration_buffers (s : Setup) (T : Int) (i v ts : Int) (now : Timeval)
    (st : PollState) (h : ¬(i > (s.buffer_count : Int) ∨ i < 0)) :
    (polling_iteration s T (Event.dequeued i v ts now) st).1.buffers =
      st.buffers.set i.toNat v := by
  rw [iteration_eq s T i v ts now st h]
  simp

theorem field_tag_stored (l : List Int) (i v : Int) (h1 : i.toNat < l.length) :
    (l.set i.toNat v).getD i.toNat 0 = v := by
  simp [List.getD_eq_getElem?_getD, h1]

theorem field_tag_other (l : List Int) (i j v : Int) (h0 : 0 ≤ i) (hj : 0 ≤ j) (h : j ≠ i) :
    (l.set i.toNat v).getD j.toNat 0 = l.getD j.toNat 0 := by
  have hne : i.toNat ≠ j.toNat := by omega
  simp [List.getD_eq_getElem?_getD, List.getElem?_set_ne hne]

theorem iteration_pending_tag (s : Setup) (T : Int) (e : Event) (st : PollState)
    (hi : s.interlaced ≠ 0) (he : in_pool s e = true) (h : pending_tag_inv s st) :
    pending_tag_inv s (polling_iteration s T e st).1 := by
  cases e with
  | timeout => simpa [polling_iteration] using h
  | no_pollin => simpa [polling_iteration] using h
  | dequeued i v ts now =>
    have hr : 0 ≤ i ∧ i < (s.buffer_count : Int) := by simpa [in_pool] using he
    have hv : ¬(i > (s.buffer_count : Int) ∨ i < 0) := by omega
    obtain ⟨hlen, hp⟩ := h
    unfold pending_tag_inv field_tag at *
    rw [iteration_buffers s T i v ts now st hv, iteration_prev_top s T i v ts now st hv,
      List.length_set]
    refine ⟨hlen, ?_⟩
    by_cases hv0 : v ≠ 0
    · rw [if_pos hi, if_pos hv0]
      intro _
      refine ⟨hr.2, ?_⟩
      rw [field_tag_stored st.buffers i v (by omega)]
      exact hv0
    · by_cases hneg : st.prev_top_idx < 0
      · rw [if_pos hi, if_neg hv0, if_pos hneg]
        intro hc
        omega
      · rw [if_pos hi, if_neg hv0, if_neg hneg]
        intro hc
        omega

theorem loop_pending_tag (s : Setup) (T : Int) (hi : s.interlaced ≠ 0) (es : List Event)
    (hes : ∀ e ∈ es, in_pool s e = true) :
    ∀ st : PollState, pending_tag_inv s st → pending_tag_inv s (polling_loop s T es st) := by
  induction es with
  | nil => intro st h; simpa [polling_loop] using h
  | cons e es ih =>
    intro st h
    have he : in_pool s e = true := hes e (List.mem_cons_self _ _)
    have hrest : ∀ x ∈ es, in_pool s x = true := fun x hx =>
      hes x (List.mem_cons_of_mem _ hx)
    unfold polling_loop
    split_ifs with h1 h2
    · exact h
    · exact iteration_pending_tag s T e st hi he h
    · exact ih hrest _ (iteration_pending_tag s T e st hi he h)

/-- Claim C22 (as amended): in interlaced mode, after any sequence of dequeue events whose
indices lie in the pool, an iteration that sets the Display Frame slot (a bottom `b`
dequeued while a top `t` is pending) leaves `disp_bufs[0]` pointing to `buffers[t]` and
`disp_bufs[1]` pointing to `buffers[b]`, with `t` in the pool; the buffer of `disp_bufs[1]`
is tagged bottom (`is_top == 0`); the buffer of `disp_bufs[0]` is tagged top
(`is_top != 0`) when `b` differs from `t`, and when the driver delivered the same index
for the top and for the bottom both entries point to that one buffer, tagged bottom. -/
theorem published_pair_field_tags (s : Setup) (T : Int) (running ffr : Int) (t0 : Timeval)
    (es : List Event) (t b ts : Int) (now : Timeval) (hi : s.interlaced ≠ 0)
    (hes : ∀ e ∈ es, in_pool s e = true)
    (hp : (polling_thread s T running ffr t0 es).prev_top_idx = t) (ht : 0 ≤ t)
    (hb : 0 ≤ b ∧ b < (s.buffer_count : Int)) :
    (polling_iteration s T (Event.dequeued b 0 ts now)
        (polling_thread s T running ffr t0 es)).1.disp_bufs0 = some t ∧
      (polling_iteration s T (Event.dequeued b 0 ts now)
        (polling_thread s T running ffr t0 es)).1.disp_bufs1 = some b ∧
      t < (s.buffer_count : Int) ∧
      field_tag (polling_iteration s T (Event.dequeued b 0 ts now)
        (polling_thread s T running ffr t0 es)).1 b = 0 ∧
      (t ≠ b → field_tag (polling_iteration s T (Event.dequeued b 0 ts now)
        (polling_thread s T running ffr t0 es)).1 t ≠ 0) ∧
      (t = b → field_tag (polling_iteration s T (Event.dequeued b 0 ts now)
        (polling_thread s T running ffr t0 es)).1 t = 0) := by
  have hinv : pending_tag_inv s (polling_thread s T running ffr t0 es) :=
    loop_pending_tag s T hi es hes _ (by
      constructor
      · simp [polling_init]
      · intro hc
        have e0 : (polling_init s running ffr t0).prev_top_idx = -1 := rfl
        rw [e0] at hc
        omega)
  obtain ⟨hlen, hpend⟩ := hinv
  obtain ⟨htb, htag⟩ := hpend (by rw [hp]; exact ht)
  rw [hp] at htb htag
  have hv : ¬(b > (s.buffer_count : Int) ∨ b < 0) := by omega
  have hnn : ¬(polling_thread s T running ffr t0 es).prev_top_idx < 0 := by omega
  have hstore : field_tag (polling_iteration s T (Event.dequeued b 0 ts now)
      (polling_thread s T running ffr t0 es)).1 b = 0 := by
    unfold field_tag
    rw [iteration_buffers s T b 0 ts now _ hv]
    exact field_tag_stored _ b 0 (by omega)
  refine ⟨?_, ?_, htb, hstore, ?_, ?_⟩
  · have hnt : ¬t < 0 := by omega
    rw [iteration_disp0 s T b 0 ts now _ hv]
    simp [hi, hp, hnt]
  · rw [iteration_disp1 s T b 0 ts now _ hv]
    simp [hi, hnn]
  · intro hne
    unfold field_tag at htag ⊢
    rw [iteration_buffers s T b 0 ts now _ hv, field_tag_other _ b t 0 hb.1 ht hne]
    exact htag
  · intro heq
    rw [heq]
    exact hstore

/-- Witness of `published_pair_field_tags`: top 0 is pending when bottom 1 arrives; the
pair published is buffer 0, tagged top, and buffer 1, tagged bottom. -/
theorem published_pair_field_tags_witness :
    (polling_iteration interlaced_setup 1 (Event.dequeued 1 0 6 ⟨0, 200⟩)
        (polling_thread interlaced_setup 1 1 0 ⟨0, 0⟩
          [Event.dequeued 0 1 5 ⟨0, 100⟩])).1.disp_bufs0 = some 0 ∧
      field_tag (polling_iteration interlaced_setup 1 (Event.dequeued 1 0 6 ⟨0, 200⟩)
        (polling_thread interlaced_setup 1 1 0 ⟨0, 0⟩
          [Event.dequeued 0 1 5 ⟨0, 100⟩])).1 0 ≠ 0 :=
  ⟨(published_pair_field_tags interlaced_setup 1 1 0 ⟨0, 0⟩ [Event.dequeued 0 1 5 ⟨0, 100⟩]
      0 1 6 ⟨0, 200⟩ (by decide) (by decide) (by decide) (by decide) (by decide)).1,
    (published_pair_field_tags interlaced_setup 1 1 0 ⟨0, 0⟩ [Event.dequeued 0 1 5 ⟨0, 100⟩]
      0 1 6 ⟨0, 200⟩ (by decide) (by decide) (by decide) (by decide)
      (by decide)).2.2.2.2.1 (by decide)⟩

/-- Counterexample to claim C22 as stated: in interlaced mode the driver delivers buffer 0
as a top field and, after it has been requeued, buffer 0 again as a bottom field.  The
second iteration sets the Display Frame slot with `disp_bufs[0]` and `disp_bufs[1]` both
pointing to `buffers[0]`, whose tag is now bottom (`is_top == 0`). -/
theorem published_pair_can_be_one_buffer :
    in_pool interlaced_setup (Event.dequeued 0 1 5 ⟨0, 100⟩) = true ∧
      in_pool interlaced_setup (Event.dequeued 0 0 6 ⟨0, 200⟩) = true ∧
      (polling_thread interlaced_setup 1 1 0 ⟨0, 0⟩
        [Event.dequeued 0 1 5 ⟨0, 100⟩, Event.dequeued 0 0 6 ⟨0, 200⟩]).disp_bufs0 = some 0 ∧
      (polling_thread interlaced_setup 1 1 0 ⟨0, 0⟩
        [Event.dequeued 0 1 5 ⟨0, 100⟩, Event.dequeued 0 0 6 ⟨0, 200⟩]).disp_bufs1 = some 0 ∧
      field_tag (polling_thread interlaced_setup 1 1 0 ⟨0, 0⟩
        [Event.dequeued 0 1 5 ⟨0, 100⟩, Event.dequeued 0 0 6 ⟨0, 200⟩]) 0 = 0 := by
  decide

end Icitest
